import Mathlib

/-! CrimeDashboard: alert polling and upload coordination.

A shallow embedding of the logic of `src/CrimeDashboard.jsx`: the component
state (the `useState` cells), the asynchronous handlers `fetchAlerts`,
`handleFileSelect`, `handleUpload`, `handleClearFile`, the auto-refresh
effect with its interval timer, the one-shot timers of an upload, and the
computations of the presentation (label tags, stats, marker coordinates).

Browser built-ins the component calls (`JSON.parse`, `JSON.stringify`,
`URL.createObjectURL`, the text of a `TypeError`) are not code of the
component; they are fields of a `Platform` record that every handler takes as
a parameter.  The outcome of a `fetch` call and the reading of the clock are
inputs supplied by the environment.
-/

namespace CrimeDashboard

/-! ## JavaScript values -/

/-- A JSON number literal: `mantissa * 10 ^ (-scale)`. -/
structure Decimal where
  mantissa : Int
  scale : Nat
  deriving DecidableEq, Repr

/-- The values `response.json()` and `JSON.parse` can produce. -/
inductive Json where
  | null
  | bool (b : Bool)
  | num (d : Decimal)
  | str (s : String)
  | arr (items : List Json)
  | obj (fields : List (String × Json))
  deriving Repr

/-- A JavaScript value read from a JSON value: `none` is `undefined`. -/
abbrev JsVal := Option Json

/-- A `File` object handed over by the picker or by a drop. -/
structure File where
  name : String
  type : String
  bytes : List Nat
  deriving DecidableEq, Repr

/-- Browser built-ins used by the component. -/
structure Platform where
  /-- Built-in `JSON.parse(v)` on any JavaScript value: the parsed value, or
  the message of the `SyntaxError` it throws. -/
  JSONparse : JsVal → Except String Json
  /-- Built-in `JSON.stringify(v)`. -/
  JSONstringify : Json → String
  /-- Built-in `URL.createObjectURL(file)`. -/
  createObjectURL : File → String
  /-- Message of the `TypeError` thrown when property `k` of `null` is read. -/
  nullPropertyError : String → String

/-- JavaScript truthiness (`if (v)`, `v || w`, `v ? a : b`). -/
def truthy : JsVal → Bool
  | none => false
  | some .null => false
  | some (.bool b) => b
  | some (.num d) => d.mantissa != 0
  | some (.str s) => s != ""
  | some (.arr _) => true
  | some (.obj _) => true

/-- Property read `v.k` on a JSON value: throws on `null`, finds the own
property of an object, and is `undefined` on every other value. -/
def getProp (P : Platform) (v : Json) (k : String) : Except String JsVal :=
  match v with
  | .null => .error (P.nullPropertyError k)
  | .obj fields => .ok (fields.lookup k)
  | _ => .ok none

/-- The expression `v || []`. -/
def orEmptyArray (v : JsVal) : Json :=
  match v with
  | some j => if truthy (some j) then j else .arr []
  | none => .arr []

/-! ## Network -/

/-- How an awaited `fetch(...)` followed by `response.json()` turns out. -/
inductive FetchOutcome where
  /-- The promise returned by `fetch` rejects with an error of this message. -/
  | networkError (message : String)
  /-- The promise resolves to a response with this status; `json` is what
  `response.json()` resolves to, or the message it rejects with. -/
  | response (status : Nat) (json : Except String Json)

/-- The flag `response.ok`: status in the range 200-299. -/
def statusOk (status : Nat) : Bool :=
  decide (200 ≤ status) && decide (status ≤ 299)

/-! ## Component state -/

/-- The `useState` cells of the component. -/
structure State where
  alerts : Json
  loading : Bool
  error : Option String
  lastUpdate : Option Nat
  autoRefresh : Bool
  selectedFile : Option File
  previewUrl : Option String
  uploading : Bool
  uploadSuccess : Bool
  uploadError : Option String
  isDragging : Bool

/-- The initial values passed to `useState`. -/
def State.initial : State where
  alerts := .arr []
  loading := true
  error := none
  lastUpdate := none
  autoRefresh := true
  selectedFile := none
  previewUrl := none
  uploading := false
  uploadSuccess := false
  uploadError := none
  isDragging := false

/-- Constant `BASE_URL`. -/
def BASE_URL : String := "https://q6js4x6jy5.execute-api.ap-south-1.amazonaws.com/prod"
/-- Constant `API_ENDPOINT`. -/
def API_ENDPOINT : String := BASE_URL ++ "/alerts"
/-- Constant `UPLOAD_ENDPOINT`. -/
def UPLOAD_ENDPOINT : String := BASE_URL ++ "/upload"

/-! ## fetchAlerts -/

/-- Lines 51-57 of `fetchAlerts`: the items taken out of the response JSON,
or the message of the exception thrown on the way. -/
def fetchAlertsItems (P : Platform) (data : Json) : Except String Json :=
  match getProp P data "body" with
  | .error m => .error m
  | .ok body =>
    if truthy body then
      match P.JSONparse body with
      | .error m => .error m
      | .ok parsedBody =>
        match getProp P parsedBody "items" with
        | .error m => .error m
        | .ok items => .ok (orEmptyArray items)
    else
      match getProp P data "items" with
      | .error m => .error m
      | .ok items => .ok (orEmptyArray items)

/-- The `try` block of `fetchAlerts` after `await fetch(API_ENDPOINT)`: the
value passed to `setAlerts`, or the message of the exception thrown. -/
def fetchAlertsTry (P : Platform) (outcome : FetchOutcome) : Except String Json :=
  match outcome with
  | .networkError m => .error m
  | .response status json =>
    if !statusOk status then .error ("API Error: " ++ toString status)
    else
      match json with
      | .error m => .error m
      | .ok data => fetchAlertsItems P data

/-- The part of `fetchAlerts` that runs before the first `await`. -/
def fetchAlertsStart (s : State) : State :=
  { s with loading := true }

/-- The part of `fetchAlerts` that runs once the request has settled, applied
to the state at that moment; `now` is the value of `new Date()`. -/
def fetchAlertsSettle (P : Platform) (now : Nat) (outcome : FetchOutcome) (s : State) : State :=
  match fetchAlertsTry P outcome with
  | .ok items =>
    { s with alerts := items, lastUpdate := some now, error := none, loading := false }
  | .error m =>
    { s with error := some m, loading := false }

/-- One call of `fetchAlerts` run to completion with no other event between. -/
def fetchAlerts (P : Platform) (now : Nat) (outcome : FetchOutcome) (s : State) : State :=
  fetchAlertsSettle P now outcome (fetchAlertsStart s)

/-! ## Sequences of poll events -/

/-- What can happen to the poller between two renders: a `fetchAlerts` call
starts, or the response of an earlier call arrives (at clock reading `now`). -/
inductive PollEvent where
  | started
  | settled (now : Nat) (outcome : FetchOutcome)

/-- Effect of one poll event on the state. -/
def pollStep (P : Platform) (s : State) : PollEvent → State
  | .started => fetchAlertsStart s
  | .settled now outcome => fetchAlertsSettle P now outcome s

/-- Effect of a sequence of poll events, in order of arrival. -/
def pollRun (P : Platform) (s : State) (events : List PollEvent) : State :=
  events.foldl (pollStep P) s

/-- Items of the response of one event, when it is a response that
`fetchAlerts` processes without an exception. -/
def successItems (P : Platform) : PollEvent → Option Json
  | .started => none
  | .settled _ outcome =>
    match fetchAlertsTry P outcome with
    | .ok items => some items
    | .error _ => none

/-- Items of the most recently arrived successful response of a sequence,
`none` when no response of the sequence was successful. -/
def lastSuccessItems (P : Platform) : List PollEvent → Option Json
  | [] => none
  | e :: rest =>
    match lastSuccessItems P rest with
    | some items => some items
    | none => successItems P e

/-- Whether a JSON value is an object with an own field `k`. -/
def hasField (v : Json) (k : String) : Bool :=
  match v with
  | .obj fields => (fields.lookup k).isSome
  | _ => false

/-! ## Requests and timers -/

/-- The `body` option of a `fetch` call. -/
inductive RequestBody where
  | absent
  | text (s : String)
  | file (f : File)

/-- One call of `fetch`: its first argument and the options passed. -/
structure Request where
  method : String
  url : JsVal
  headers : List (String × String)
  body : RequestBody

/-- The call `fetch(API_ENDPOINT)` of `fetchAlerts`. -/
def alertsRequest : Request where
  method := "GET"
  url := some (.str API_ENDPOINT)
  headers := []
  body := .absent

/-- The callbacks the component passes to `setTimeout`. -/
inductive TimeoutAction where
  /-- The callback `() => fetchAlerts()`. -/
  | fetchAlerts
  /-- The callback `() => setUploadSuccess(false)`. -/
  | clearUploadSuccess
  deriving DecidableEq, Repr

/-- One call of `setTimeout`: the callback and the delay in milliseconds. -/
structure Timeout where
  action : TimeoutAction
  delay : Nat
  deriving DecidableEq, Repr

/-! ## File selection -/

/-- The method `s.startsWith(p)`. -/
def startsWith (s p : String) : Bool :=
  p.data.isPrefixOf s.data

/-- Handler `handleFileSelect(file)`; `none` is the `undefined` the picker or
the drop hands over when it holds no file. -/
def handleFileSelect (P : Platform) (file : Option File) (s : State) : State :=
  match file with
  | some f =>
    if startsWith f.type "image/" then
      { s with
        selectedFile := some f
        previewUrl := some (P.createObjectURL f)
        uploadError := none
        uploadSuccess := false }
    else
      { s with uploadError := some "Please select a valid image file" }
  | none =>
    { s with uploadError := some "Please select a valid image file" }

/-- Handler `handleDragOver`. -/
def handleDragOver (s : State) : State :=
  { s with isDragging := true }

/-- Handler `handleDragLeave`. -/
def handleDragLeave (s : State) : State :=
  { s with isDragging := false }

/-- Handler `handleDrop`, `file` being `e.dataTransfer.files[0]`. -/
def handleDrop (P : Platform) (file : Option File) (s : State) : State :=
  handleFileSelect P file { s with isDragging := false }

/-- Handler `handleClearFile`. -/
def handleClearFile (s : State) : State :=
  { s with selectedFile := none, previewUrl := none, uploadError := none, uploadSuccess := false }

/-! ## handleUpload -/

/-- The signed-URL request of `handleUpload` for the selected file. -/
def uploadPostRequest (P : Platform) (file : File) : Request where
  method := "POST"
  url := some (.str UPLOAD_ENDPOINT)
  headers := [("Content-Type", "application/json")]
  body := .text (P.JSONstringify (.obj [("fileName", .str file.name), ("fileType", .str file.type)]))

/-- The transfer request of `handleUpload` to the value of
`uploadData.uploadUrl`. -/
def uploadPutRequest (file : File) (uploadUrl : JsVal) : Request where
  method := "PUT"
  url := uploadUrl
  headers := [("Content-Type", file.type)]
  body := .file file

/-- Lines 132 and 134 of `handleUpload`: the value of `uploadData.uploadUrl`
for the response JSON `data`, or the message of the exception thrown. -/
def uploadTarget (P : Platform) (data : Json) : Except String JsVal :=
  match getProp P data "body" with
  | .error m => .error m
  | .ok body =>
    if truthy body then
      match P.JSONparse body with
      | .error m => .error m
      | .ok uploadData => getProp P uploadData "uploadUrl"
    else
      getProp P data "uploadUrl"

/-- The `try` block of `handleUpload` from the first `fetch` on, for the
selected file of the closure: the requests issued, in order, and the message
of the exception thrown, if any.  `post` and `put` are what the environment
answers to the first and to the second `fetch`; `put` is only consulted when
the second `fetch` is called. -/
def handleUploadTry (P : Platform) (file : File) (post put : FetchOutcome) :
    List Request × Except String Unit :=
  match post with
  | .networkError m => ([uploadPostRequest P file], .error m)
  | .response status json =>
    if !statusOk status then
      ([uploadPostRequest P file], .error ("Failed to get upload URL: " ++ toString status))
    else
      match json with
      | .error m => ([uploadPostRequest P file], .error m)
      | .ok data =>
        match uploadTarget P data with
        | .error m => ([uploadPostRequest P file], .error m)
        | .ok uploadUrl =>
          match put with
          | .networkError m =>
            ([uploadPostRequest P file, uploadPutRequest file uploadUrl], .error m)
          | .response putStatus _ =>
            if !statusOk putStatus then
              ([uploadPostRequest P file, uploadPutRequest file uploadUrl],
                .error ("Upload failed: " ++ toString putStatus))
            else
              ([uploadPostRequest P file, uploadPutRequest file uploadUrl], .ok ())

/-- What one call of `handleUpload` does: the state it leaves, the requests it
issued and the timers it scheduled. -/
structure UploadRun where
  state : State
  requests : List Request
  timers : List Timeout

/-- Handler `handleUpload` run to completion with no other event between, from
state `s` (whose `selectedFile` is the one the closure holds). -/
def handleUpload (P : Platform) (post put : FetchOutcome) (s : State) : UploadRun :=
  match s.selectedFile with
  | none => { state := s, requests := [], timers := [] }
  | some file =>
    match handleUploadTry P file post put with
    | (requests, .ok ()) =>
      { state :=
          { s with
            uploadError := none
            uploadSuccess := true
            selectedFile := none
            previewUrl := none
            uploading := false }
        requests := requests
        timers := [⟨.fetchAlerts, 3000⟩, ⟨.clearUploadSuccess, 5000⟩] }
    | (requests, .error m) =>
      { state := { s with uploadError := some m, uploading := false }
        requests := requests
        timers := [] }

/-! ### Failure of an upload, phase by phase

The description of a failing upload used to state what `handleUpload` reports:
it follows the phases of the upload, not the control flow of the handler. -/

/-- A request fails: the `fetch` promise rejects, or the response has a status
outside 200-299. -/
def FetchOutcome.failed : FetchOutcome → Bool
  | .networkError _ => true
  | .response status _ => !statusOk status

/-- Message of a failed request: the exception text, or `label` followed by
the status code; `none` when the request did not fail. -/
def requestFailure (label : String) : FetchOutcome → Option String
  | .networkError m => some m
  | .response status _ => if statusOk status then none else some (label ++ toString status)

/-- Message of a malformed body of the signed-URL response: the text of the
exception of `response.json()`, of `JSON.parse`, or of reading a property of
`null`; `none` when the upload target can be read from the body. -/
def bodyFailure (P : Platform) : FetchOutcome → Option String
  | .networkError _ => none
  | .response _ (.error m) => some m
  | .response _ (.ok data) =>
    match uploadTarget P data with
    | .error m => some m
    | .ok _ => none

/-- Message of the first failing step of an upload: the signed-URL request,
then the body of its response, then the transfer; `none` when no step fails. -/
def firstUploadFailure (P : Platform) (post put : FetchOutcome) : Option String :=
  match requestFailure "Failed to get upload URL: " post with
  | some m => some m
  | none =>
    match bodyFailure P post with
    | some m => some m
    | none => requestFailure "Upload failed: " put

/-! ## The auto-refresh effect -/

/-- A mounted component: its state cells, the interval timers registered with
`setInterval` and not yet cleared (identifier and period), the interval that
the cleanup function returned by the last run of the effect clears (`none`
when the effect returned nothing), the next timer identifier, and the log of
the requests issued so far. -/
structure Dashboard where
  state : State
  intervals : List (Nat × Nat)
  cleanup : Option Nat
  nextTimerId : Nat
  requests : List Request

/-- A call of `fetchAlerts` up to its first `await`: `loading` is set and the
GET request is issued. -/
def Dashboard.callFetchAlerts (d : Dashboard) : Dashboard :=
  { d with state := fetchAlertsStart d.state, requests := d.requests ++ [alertsRequest] }

/-- Body of the effect of lines 71-78: `fetchAlerts()`, then, when
`autoRefresh` holds, `setInterval(fetchAlerts, 5000)` and a cleanup function
clearing that interval. -/
def Dashboard.runEffect (d : Dashboard) : Dashboard :=
  let d₁ := d.callFetchAlerts
  if d₁.state.autoRefresh then
    { d₁ with
      intervals := d₁.intervals ++ [(d₁.nextTimerId, 5000)]
      cleanup := some d₁.nextTimerId
      nextTimerId := d₁.nextTimerId + 1 }
  else
    { d₁ with cleanup := none }

/-- The cleanup function of the last run of the effect, if it returned one:
`clearInterval(interval)`. -/
def Dashboard.runCleanup (d : Dashboard) : Dashboard :=
  match d.cleanup with
  | some id => { d with intervals := d.intervals.filter (fun t => t.1 != id), cleanup := none }
  | none => d

/-- The component right after mounting: initial state, effect run once. -/
def Dashboard.mount : Dashboard :=
  Dashboard.runEffect
    { state := State.initial, intervals := [], cleanup := none, nextTimerId := 1, requests := [] }

/-- Click on Pause/Resume: `setAutoRefresh(!autoRefresh)`; the dependency of
the effect has changed, so the render that follows runs the cleanup of the
previous effect and then the effect again. -/
def Dashboard.toggleLive (d : Dashboard) : Dashboard :=
  Dashboard.runEffect
    (Dashboard.runCleanup { d with state := { d.state with autoRefresh := !d.state.autoRefresh } })

/-- Click on Refresh: `fetchAlerts()`. -/
def Dashboard.refresh (d : Dashboard) : Dashboard :=
  d.callFetchAlerts

/-- The interval timer `id` fires: its callback `fetchAlerts` runs when the
interval is still registered. -/
def Dashboard.tick (id : Nat) (d : Dashboard) : Dashboard :=
  if d.intervals.any (fun t => t.1 == id) then d.callFetchAlerts else d

/-- Events of a mounted component that concern the poller. -/
inductive Event where
  | toggleLive
  | refresh
  | tick (id : Nat)
  | alertsResponse (now : Nat) (outcome : FetchOutcome)

/-- Effect of one event. -/
def Dashboard.step (P : Platform) (d : Dashboard) : Event → Dashboard
  | .toggleLive => d.toggleLive
  | .refresh => d.refresh
  | .tick id => d.tick id
  | .alertsResponse now outcome => { d with state := fetchAlertsSettle P now outcome d.state }

/-- The component after mount and a sequence of events. -/
def Dashboard.run (P : Platform) (events : List Event) : Dashboard :=
  events.foldl (Dashboard.step P) Dashboard.mount

/-- The intervals of period 5000 ms that are active. -/
def Dashboard.pollingIntervals (d : Dashboard) : List (Nat × Nat) :=
  d.intervals.filter (fun t => t.2 == 5000)

/-! ## The component over time

`handleUpload` in two parts, around its awaits, so that other events can fall
between them; one-shot timers with their due times; unmounting. -/

/-- The part of `handleUpload` before the first `await`: `none` when it returns
at line 112, else the file held by the closure and the state left. -/
def handleUploadStart (s : State) : Option (File × State) :=
  match s.selectedFile with
  | none => none
  | some file => some (file, { s with uploading := true, uploadError := none })

/-- The part of `handleUpload` after its awaits, for the file of its closure,
applied to the state at that moment. -/
def handleUploadSettle (P : Platform) (file : File) (post put : FetchOutcome) (s : State) :
    UploadRun :=
  match handleUploadTry P file post put with
  | (requests, .ok ()) =>
    { state :=
        { s with
          uploadSuccess := true
          selectedFile := none
          previewUrl := none
          uploading := false }
      requests := requests
      timers := [⟨.fetchAlerts, 3000⟩, ⟨.clearUploadSuccess, 5000⟩] }
  | (requests, .error m) =>
    { state := { s with uploadError := some m, uploading := false }
      requests := requests
      timers := [] }

/-- Whether the Upload button of lines 313-315 can be clicked: it is rendered
only with a preview and is disabled while an upload is in flight. -/
def uploadButtonEnabled (s : State) : Bool :=
  (match s.previewUrl with
    | some url => url != ""
    | none => false) && !s.uploading

/-- A one-shot timer put into the pending ones, which are kept in the order in
which they fire: by due time, and by registration among equal due times. -/
def insertTimeout (t : Nat × TimeoutAction) :
    List (Nat × TimeoutAction) → List (Nat × TimeoutAction)
  | [] => [t]
  | u :: rest => if t.1 < u.1 then t :: u :: rest else u :: insertTimeout t rest

/-- A component instance over time: the poller part, whether it is still
mounted, the clock in milliseconds since mount, the one-shot timers registered
with `setTimeout` and not yet fired (due time and callback; the component
keeps no handle on them), and the files of the `handleUpload` calls that are
awaiting their responses. -/
structure Component where
  dash : Dashboard
  mounted : Bool
  clock : Nat
  timeouts : List (Nat × TimeoutAction)
  uploads : List File

/-- The component right after mounting. -/
def Component.mount : Component where
  dash := Dashboard.mount
  mounted := true
  clock := 0
  timeouts := []
  uploads := []

/-- State update by a setter: dropped once the component is unmounted. -/
def Component.setState (c : Component) (s : State) : Component :=
  if c.mounted then { c with dash := { c.dash with state := s } } else c

/-- A request is issued. -/
def Component.issue (c : Component) (requests : List Request) : Component :=
  { c with dash := { c.dash with requests := c.dash.requests ++ requests } }

/-- The callback of a one-shot timer runs, mounted or not. -/
def Component.fire (c : Component) : TimeoutAction → Component
  | .fetchAlerts => (c.setState (fetchAlertsStart c.dash.state)).issue [alertsRequest]
  | .clearUploadSuccess => c.setState { c.dash.state with uploadSuccess := false }

/-- Time passes: the pending timers due by then fire in order. -/
def Component.wait (ms : Nat) (c : Component) : Component :=
  let due := c.timeouts.filter (fun t => t.1 ≤ c.clock + ms)
  let later := c.timeouts.filter (fun t => !(t.1 ≤ c.clock + ms))
  due.foldl (fun acc t => acc.fire t.2) { c with timeouts := later, clock := c.clock + ms }

/-- Unmounting: the cleanup of the effect runs; nothing else is released. -/
def Component.unmount (c : Component) : Component :=
  if c.mounted then { c with dash := c.dash.runCleanup, mounted := false } else c

/-- Click on Upload, when the button can be clicked: `handleUpload` runs up to
its first `await` and the POST is issued. -/
def Component.uploadClick (P : Platform) (c : Component) : Component :=
  if c.mounted && uploadButtonEnabled c.dash.state then
    match handleUploadStart c.dash.state with
    | none => c
    | some (file, s) =>
      { (c.setState s).issue [uploadPostRequest P file] with uploads := c.uploads ++ [file] }
  else c

/-- The `handleUpload` call number `index` among those in flight gets its
answers: the PUT, if it comes to it, is issued, the setters run on the current
state, and the timers of a success are registered. -/
def Component.uploadSettle (P : Platform) (index : Nat) (post put : FetchOutcome)
    (c : Component) : Component :=
  match c.uploads[index]? with
  | none => c
  | some file =>
    let r := handleUploadSettle P file post put c.dash.state
    let c₁ := (c.setState r.state).issue r.requests.tail
    { c₁ with
      uploads := c.uploads.eraseIdx index
      timeouts := r.timers.foldl
        (fun acc t => insertTimeout (c.clock + t.delay, t.action) acc) c.timeouts }

/-- Events of a component instance. -/
inductive Action where
  | poll (e : Event)
  | dragOver
  | dragLeave
  | drop (file : Option File)
  | fileSelect (file : Option File)
  | clearFile
  | uploadClick
  | uploadSettle (index : Nat) (post put : FetchOutcome)
  | wait (ms : Nat)
  | unmount

/-- Effect of one event.  User events and interval ticks need the mounted
component; a response arriving after unmount finds its setters dropped. -/
def Component.step (P : Platform) (c : Component) : Action → Component
  | .poll e => if c.mounted then { c with dash := c.dash.step P e } else c
  | .dragOver => c.setState (handleDragOver c.dash.state)
  | .dragLeave => c.setState (handleDragLeave c.dash.state)
  | .drop file => c.setState (handleDrop P file c.dash.state)
  | .fileSelect file => c.setState (handleFileSelect P file c.dash.state)
  | .clearFile => c.setState (handleClearFile c.dash.state)
  | .uploadClick => c.uploadClick P
  | .uploadSettle index post put => c.uploadSettle P index post put
  | .wait ms => c.wait ms
  | .unmount => c.unmount

/-- The component after mount and a sequence of events. -/
def Component.run (P : Platform) (actions : List Action) : Component :=
  actions.foldl (Component.step P) Component.mount

/-- The selection is consistent: the selected file is `null` exactly when the
preview URL is, and a set success flag comes with no selected file. -/
def selectionConsistent (s : State) : Prop :=
  (s.selectedFile = none ↔ s.previewUrl = none) ∧
  (s.uploadSuccess = true → s.selectedFile = none)

/-- The registered intervals are exactly the one that the cleanup of the last
effect run clears. -/
def Dashboard.intervalOwned (d : Dashboard) : Prop :=
  d.intervals = (match d.cleanup with
    | some id => [(id, 5000)]
    | none => [])

/-! ## Presentation: labels, stats, markers -/

/-- The expression `a || b`. -/
def orElse (a b : JsVal) : JsVal :=
  if truthy a then a else b

/-- Result of `Math.round`: an integer, or `NaN`. -/
inductive Rounded where
  | nan
  | int (n : Int)
  deriving DecidableEq, Repr

/-- The integer `Math.round` gives on a number: the floor of the number plus
one half. -/
def roundDecimal (d : Decimal) : Int :=
  (2 * d.mantissa + 10 ^ d.scale) / (2 * 10 ^ d.scale)

/-- Built-in `Math.round(v)`.  The conversion of `undefined`, `null`, booleans
and numbers is fixed by the language; `toNumber` is the built-in conversion of
a string, an array or an object to a number (`none` for `NaN`). -/
def mathRound (toNumber : Json → Option Decimal) : JsVal → Rounded
  | none => .nan
  | some .null => .int 0
  | some (.bool b) => .int (if b then 1 else 0)
  | some (.num d) => .int (roundDecimal d)
  | some v =>
    match toNumber v with
    | some d => .int (roundDecimal d)
    | none => .nan

/-- The two values a label tag shows: the child `{label}` and the child
`{Math.round(confidence)}`. -/
structure LabelTag where
  label : JsVal
  confidence : Rounded

/-- Body of the `map` callback of lines 562-574 for one label entry: `label`
and `confidence` are taken by position from an array and by field name
(`name || Name`, `confidence || Confidence`) from any other value. -/
def renderLabel (P : Platform) (toNumber : Json → Option Decimal) (labelData : Json) :
    Except String LabelTag :=
  match labelData with
  | .arr entries =>
    .ok { label := entries[0]?, confidence := mathRound toNumber entries[1]? }
  | other =>
    match getProp P other "name", getProp P other "Name",
      getProp P other "confidence", getProp P other "Confidence" with
    | .ok name, .ok name', .ok confidence, .ok confidence' =>
      .ok { label := orElse name name'
            confidence := mathRound toNumber (orElse confidence confidence') }
    | .error m, _, _, _ => .error m
    | _, .error m, _, _ => .error m
    | _, _, .error m, _ => .error m
    | _, _, _, .error m => .error m

/-- The object `stats`. -/
structure Stats where
  total : Nat
  high : Nat
  normal : Nat
  deriving DecidableEq, Repr

/-- The test `a.alert_level === level` of the `filter` callbacks, or the
message of the exception thrown when `a` is `null`. -/
def levelIs (P : Platform) (level : String) (a : Json) : Except String Bool :=
  match getProp P a "alert_level" with
  | .error m => .error m
  | .ok (some (.str s)) => .ok (s == level)
  | .ok _ => .ok false

/-- Length of `alerts.filter((a) => a.alert_level === level)`. -/
def countLevel (P : Platform) (level : String) : List Json → Except String Nat
  | [] => .ok 0
  | a :: rest =>
    match levelIs P level a with
    | .error m => .error m
    | .ok keep =>
      match countLevel P level rest with
      | .error m => .error m
      | .ok n => .ok (if keep then n + 1 else n)

/-- The object `stats` of lines 165-169, computed at every render from the
displayed collection; the render throws when `alerts` is not an array (it has
no `filter` method; `notArray` is the message) or holds a `null`. -/
def stats (P : Platform) (notArray : String) (alerts : Json) : Except String Stats :=
  match alerts with
  | .arr items =>
    match countLevel P "HIGH" items, countLevel P "NORMAL" items with
    | .ok high, .ok normal => .ok { total := items.length, high := high, normal := normal }
    | .error m, _ => .error m
    | _, .error m => .error m
  | _ => .error notArray

/-- Whether an alert is an object whose `alert_level` is the string `level`. -/
def hasLevel (level : String) (a : Json) : Bool :=
  match a with
  | .obj fields =>
    match fields.lookup "alert_level" with
    | some (.str s) => s == level
    | _ => false
  | _ => false

/-- The method `s.includes(p)` on strings. -/
def includes (s p : String) : Bool :=
  s.data.tails.any (fun t => p.data.isPrefixOf t)

/-- A position on the map, in percent. -/
structure Coordinates where
  x : Int
  y : Int
  deriving DecidableEq, Repr

/-- Lines 172-181 of `getAlertCoordinates`: the base location chosen by the
keyword found in `alert.key`. -/
def baseLocation (key : String) : Coordinates :=
  if includes key "knife" then { x := 30, y := 45 }
  else if includes key "gun" then { x := 65, y := 30 }
  else if includes key "street" then { x := 50, y := 70 }
  else { x := 50, y := 50 }

/-- Function `getAlertCoordinates(alert, index)` for an alert whose `key` is the
string `key` and an array index `index`. -/
def getAlertCoordinates (key : String) (index : Nat) : Coordinates :=
  let base := baseLocation key
  let offset := (index % 10) * 2
  { x := min 95 (base.x + ((offset % 15 : Nat) : Int) - 7)
    y := min 95 (base.y + ((offset / 3 : Nat) : Int) - 7) }

/-! ## A reference platform

A concrete `Platform` on which the handlers can be evaluated: a JSON codec for
texts without exponents and unicode escapes, numbers printed in positional
notation.  No statement about the component depends on it; it instantiates
them. -/

namespace Codec


/-- The double quote character. -/
def quote : Char := Char.ofNat 34
/-- The backslash character. -/
def backslash : Char := Char.ofNat 92

/-- Text of a string literal body: quotes, backslashes and line breaks escaped. -/
def escapeChars : List Char → List Char
  | [] => []
  | c :: cs =>
    if c.toNat = 34 then backslash :: quote :: escapeChars cs
    else if c.toNat = 92 then backslash :: backslash :: escapeChars cs
    else if c.toNat = 10 then backslash :: 'n' :: escapeChars cs
    else c :: escapeChars cs

/-- A string literal. -/
def renderString (s : String) : List Char :=
  quote :: escapeChars s.data ++ [quote]

/-- Digits padded with zeros on the left to width `n`. -/
def padLeft (n : Nat) (cs : List Char) : List Char :=
  List.replicate (n - cs.length) '0' ++ cs

/-- A number in positional notation. -/
def renderDecimal (d : Decimal) : List Char :=
  let sign : List Char := if d.mantissa < 0 then ['-'] else []
  let m := d.mantissa.natAbs
  if d.scale = 0 then sign ++ (Nat.toDigits 10 m)
  else sign ++ Nat.toDigits 10 (m / 10 ^ d.scale) ++ '.' :: padLeft d.scale (Nat.toDigits 10 (m % 10 ^ d.scale))

mutual
/-- Text of a JSON value, without blanks. -/
def render : Json → List Char
  | .null => ['n', 'u', 'l', 'l']
  | .bool true => ['t', 'r', 'u', 'e']
  | .bool false => ['f', 'a', 'l', 's', 'e']
  | .num d => renderDecimal d
  | .str s => renderString s
  | .arr xs => '[' :: renderList xs ++ [']']
  | .obj fs => Char.ofNat 123 :: renderFields fs ++ [Char.ofNat 125]
/-- Elements of an array, separated by commas. -/
def renderList : List Json → List Char
  | [] => []
  | [x] => render x
  | x :: y :: r => render x ++ ',' :: renderList (y :: r)
/-- Members of an object, separated by commas. -/
def renderFields : List (String × Json) → List Char
  | [] => []
  | [(k, v)] => renderString k ++ ':' :: render v
  | (k, v) :: y :: r => renderString k ++ ':' :: render v ++ ',' :: renderFields (y :: r)
end

/-- JSON white space. -/
def isWs (c : Char) : Bool := c.toNat = 32 || c.toNat = 10 || c.toNat = 13 || c.toNat = 9

/-- The text after its leading white space. -/
def skipWs : List Char → List Char
  | [] => []
  | c :: cs => if isWs c then skipWs cs else c :: cs

/-- Decimal digits. -/
def isDigit (c : Char) : Bool := decide (48 ≤ c.toNat) && decide (c.toNat ≤ 57)

/-- Leading digits read as a number, their count, and the rest. -/
def readDigits (acc count : Nat) : List Char → Nat × Nat × List Char
  | [] => (acc, count, [])
  | c :: cs => if isDigit c then readDigits (acc * 10 + (c.toNat - 48)) (count + 1) cs else (acc, count, c :: cs)

/-- A number after its sign: digits, then optionally a point and digits. -/
def readNumber (negative : Bool) (cs : List Char) : Option (Json × List Char) :=
  match readDigits 0 0 cs with
  | (_, 0, _) => none
  | (whole, _, rest) =>
    match rest with
    | '.' :: more =>
      match readDigits whole 0 more with
      | (_, 0, _) => none
      | (m, k, rest2) => some (.num ⟨if negative then -(m : Int) else m, k⟩, rest2)
    | _ => some (.num ⟨if negative then -(whole : Int) else whole, 0⟩, rest)

/-- Body of a string literal after its opening quote. -/
def readString : List Char → Option (List Char × List Char)
  | [] => none
  | [c] => if c.toNat = 34 then some ([], []) else none
  | c :: d :: cs =>
    if c.toNat = 34 then some ([], d :: cs)
    else if c.toNat = 92 then
      let e : Option Char :=
        if d.toNat = 34 then some quote
        else if d.toNat = 92 then some backslash
        else if d = '/' then some '/'
        else if d = 'n' then some (Char.ofNat 10)
        else if d = 't' then some (Char.ofNat 9)
        else if d = 'r' then some (Char.ofNat 13)
        else none
      match e, readString cs with
      | some x, some (s, rest) => some (x :: s, rest)
      | _, _ => none
    else
      match readString (d :: cs) with
      | some (s, rest) => some (c :: s, rest)
      | none => none

mutual
/-- One JSON value at the head of the text, and the rest of the text. -/
def readValue : Nat → List Char → Option (Json × List Char)
  | 0, _ => none
  | fuel + 1, cs =>
    match skipWs cs with
    | 'n' :: 'u' :: 'l' :: 'l' :: rest => some (.null, rest)
    | 't' :: 'r' :: 'u' :: 'e' :: rest => some (.bool true, rest)
    | 'f' :: 'a' :: 'l' :: 's' :: 'e' :: rest => some (.bool false, rest)
    | '-' :: rest => readNumber true rest
    | '[' :: rest =>
      match skipWs rest with
      | ']' :: rest2 => some (.arr [], rest2)
      | _ => match readElements fuel rest with
        | some (xs, rest2) => some (.arr xs, rest2)
        | none => none
    | c :: rest =>
      if c.toNat = 34 then
        match readString rest with
        | some (s, rest2) => some (.str (String.mk s), rest2)
        | none => none
      else if c.toNat = 123 then
        match skipWs rest with
        | [] => none
        | d :: rest2 =>
          if d.toNat = 125 then some (.obj [], rest2)
          else match readMembers fuel rest with
            | some (fs, rest3) => some (.obj fs, rest3)
            | none => none
      else if isDigit c then readNumber false (c :: rest)
      else none
    | [] => none
/-- Elements of an array up to and including the closing bracket. -/
def readElements : Nat → List Char → Option (List Json × List Char)
  | 0, _ => none
  | fuel + 1, cs =>
    match readValue fuel cs with
    | none => none
    | some (x, rest) =>
      match skipWs rest with
      | ',' :: rest2 =>
        match readElements fuel rest2 with
        | some (xs, rest3) => some (x :: xs, rest3)
        | none => none
      | ']' :: rest2 => some ([x], rest2)
      | _ => none
/-- Members of an object up to and including the closing brace. -/
def readMembers : Nat → List Char → Option (List (String × Json) × List Char)
  | 0, _ => none
  | fuel + 1, cs =>
    match skipWs cs with
    | [] => none
    | q :: rest =>
      if q.toNat = 34 then
        match readString rest with
        | none => none
        | some (k, rest2) =>
          match skipWs rest2 with
          | ':' :: rest3 =>
            match readValue fuel rest3 with
            | none => none
            | some (v, rest4) =>
              match skipWs rest4 with
              | [] => none
              | d :: rest5 =>
                if d = ',' then
                  match readMembers fuel rest5 with
                  | some (fs, rest6) => some ((String.mk k, v) :: fs, rest6)
                  | none => none
                else if d.toNat = 125 then some ([(String.mk k, v)], rest5)
                else none
          | _ => none
      else none
end

/-- A whole text read as one JSON value. -/
def parseChars (cs : List Char) : Option Json :=
  match readValue (cs.length + 1) cs with
  | some (v, rest) => if (skipWs rest).isEmpty then some v else none
  | none => none


mutual
/-- JavaScript `ToString` on a JSON value, as applied by `JSON.parse` to an
argument that is not a string. -/
def toStringJs : Json → List Char
  | .null => ['n', 'u', 'l', 'l']
  | .str s => s.data
  | .arr xs => joinJs xs
  | .obj _ => "[object Object]".data
  | .bool b => render (.bool b)
  | .num d => render (.num d)
/-- Elements of an array joined by commas, `null` printing as nothing. -/
def joinJs : List Json → List Char
  | [] => []
  | [x] => elemJs x
  | x :: y :: r => elemJs x ++ ',' :: joinJs (y :: r)
/-- One element inside `Array.prototype.join`. -/
def elemJs : Json → List Char
  | .null => []
  | .str s => s.data
  | .arr xs => joinJs xs
  | .obj _ => "[object Object]".data
  | .bool b => render (.bool b)
  | .num d => render (.num d)
end

end Codec

/-- The reference platform. -/
def referencePlatform : Platform where
  JSONparse := fun v =>
    let text : List Char :=
      match v with
      | none => "undefined".data
      | some j => Codec.toStringJs j
    match Codec.parseChars text with
    | some j => .ok j
    | none => .error "Unexpected token in JSON"
  JSONstringify := fun v => String.mk (Codec.render v)
  createObjectURL := fun f => "blob:" ++ f.name
  nullPropertyError := fun k => "Cannot read properties of null (reading " ++ k ++ ")"

/-! ## Scenarios -/

/-- A PNG file. -/
def camPng : File := ⟨"cam.png", "image/png", [137, 80]⟩

/-- A JPEG file. -/
def lotJpg : File := ⟨"lot.jpg", "image/jpeg", [255, 216]⟩

/-- A 200 answer of the upload endpoint carrying a signed URL. -/
def signedUrlResponse : FetchOutcome :=
  .response 200 (.ok (.obj [("uploadUrl", .str "https://bucket.example/upload")]))

/-- A 200 answer of the storage service, without a JSON body. -/
def storedResponse : FetchOutcome :=
  .response 200 (.error "Unexpected end of JSON input")

/-- A file is picked and uploaded with success at time 0; the component is
unmounted one second later. -/
def uploadThenUnmount : List Action :=
  [.fileSelect (some camPng), .uploadClick, .uploadSettle 0 signedUrlResponse storedResponse,
    .wait 1000, .unmount]

/-- A file is picked and uploaded with success at time 0; a second file is
picked at time 1000 and uploaded with success at time 2000. -/
def twoUploads : List Action :=
  [.fileSelect (some camPng), .uploadClick, .uploadSettle 0 signedUrlResponse storedResponse,
    .wait 1000, .fileSelect (some lotJpg), .uploadClick, .wait 1000,
    .uploadSettle 0 signedUrlResponse storedResponse]

end CrimeDashboard

/-! # Properties -/

namespace CrimeDashboard

/-! ## Alert poller -/

theorem fetchAlerts_eq (P : Platform) (now : Nat) (outcome : FetchOutcome) (s : State) :
    fetchAlerts P now outcome s = fetchAlertsSettle P now outcome s := by
  unfold fetchAlerts fetchAlertsSettle fetchAlertsStart
  cases fetchAlertsTry P outcome <;> rfl

theorem fetchAlertsTry_direct (P : Platform) (status : Nat) (L : List Json)
    (hok : statusOk status = true) :
    fetchAlertsTry P (.response status (.ok (.obj [("items", .arr L)]))) = .ok (.arr L) := by
  simp [fetchAlertsTry, hok, fetchAlertsItems, getProp, List.lookup, truthy, orEmptyArray]

theorem fetchAlertsTry_wrapped (P : Platform) (status : Nat) (L : List Json) (text : String)
    (hok : statusOk status = true) (hne : text ≠ "")
    (hparse : P.JSONparse (some (.str text)) = .ok (.obj [("items", .arr L)])) :
    fetchAlertsTry P (.response status (.ok (.obj [("body", .str text)]))) = .ok (.arr L) := by
  simp [fetchAlertsTry, hok, fetchAlertsItems, getProp, List.lookup, truthy, orEmptyArray,
    hne, hparse]

theorem fetchAlertsSettle_ok (P : Platform) (now : Nat) (outcome : FetchOutcome) (s : State)
    (items : Json) (h : fetchAlertsTry P outcome = .ok items) :
    fetchAlertsSettle P now outcome s =
      { s with alerts := items, lastUpdate := some now, error := none, loading := false } := by
  simp [fetchAlertsSettle, h]

theorem fetchAlertsSettle_error (P : Platform) (now : Nat) (outcome : FetchOutcome) (s : State)
    (m : String) (h : fetchAlertsTry P outcome = .error m) :
    fetchAlertsSettle P now outcome s = { s with error := some m, loading := false } := by
  simp [fetchAlertsSettle, h]

/-- C1: for every list of alerts `L`, a 2xx response whose JSON is
`{items: L}` and a 2xx response whose JSON is `{body: JSON.stringify({items: L})}`
leave the same displayed alert collection, equal to `L`, whatever the prior
states; the platform fact used is that `JSON.parse` reads the text written by
`JSON.stringify` for `{items: L}` back as that value (the text is not empty). -/
theorem fetchAlerts_envelope_shapes_agree (P : Platform) (L : List Json)
    (status₁ status₂ now₁ now₂ : Nat) (s₁ s₂ : State)
    (hok₁ : statusOk status₁ = true) (hok₂ : statusOk status₂ = true)
    (hne : P.JSONstringify (.obj [("items", .arr L)]) ≠ "")
    (hparse : P.JSONparse (some (.str (P.JSONstringify (.obj [("items", .arr L)]))))
      = .ok (.obj [("items", .arr L)])) :
    (fetchAlerts P now₁ (.response status₁ (.ok (.obj [("items", .arr L)]))) s₁).alerts = .arr L ∧
    (fetchAlerts P now₂ (.response status₂ (.ok (.obj
      [("body", .str (P.JSONstringify (.obj [("items", .arr L)])))]))) s₂).alerts = .arr L := by
  constructor
  · rw [fetchAlerts_eq, fetchAlertsSettle_ok P _ _ _ _ (fetchAlertsTry_direct P status₁ L hok₁)]
  · rw [fetchAlerts_eq,
      fetchAlertsSettle_ok P _ _ _ _ (fetchAlertsTry_wrapped P status₂ L _ hok₂ hne hparse)]

/-- C1, instance: the two envelope shapes of a one-alert list on the reference
platform. -/
theorem fetchAlerts_envelope_shapes_agree_witness :
    (fetchAlerts referencePlatform 7 (.response 200 (.ok (.obj
        [("items", .arr [.obj [("AlertId", .str "1"), ("alert_level", .str "HIGH")]])])))
        State.initial).alerts
      = .arr [.obj [("AlertId", .str "1"), ("alert_level", .str "HIGH")]] ∧
    (fetchAlerts referencePlatform 9 (.response 201 (.ok (.obj
        [("body", .str (referencePlatform.JSONstringify (.obj
          [("items", .arr [.obj [("AlertId", .str "1"), ("alert_level", .str "HIGH")]])])))])))
        State.initial).alerts
      = .arr [.obj [("AlertId", .str "1"), ("alert_level", .str "HIGH")]] :=
  fetchAlerts_envelope_shapes_agree referencePlatform
    [.obj [("AlertId", .str "1"), ("alert_level", .str "HIGH")]] 200 201 7 9
    State.initial State.initial (by decide) (by decide) (by decide) rfl

theorem fetchAlertsItems_no_fields (P : Platform) (data : Json) (hnull : data ≠ .null)
    (hbody : hasField data "body" = false) (hitems : hasField data "items" = false) :
    fetchAlertsItems P data = .ok (.arr []) := by
  cases data with
  | null => exact absurd rfl hnull
  | obj fields =>
    have hb : fields.lookup "body" = none := by
      cases h : fields.lookup "body" <;> simp [hasField, h] at hbody ⊢
    have hi : fields.lookup "items" = none := by
      cases h : fields.lookup "items" <;> simp [hasField, h] at hitems ⊢
    simp [fetchAlertsItems, getProp, hb, hi, truthy, orEmptyArray]
  | _ => simp [fetchAlertsItems, getProp, truthy, orEmptyArray]

/-- C2, counterexample: a 200 response whose JSON is the literal `null` has
neither a `body` nor an `items` field, yet `fetchAlerts` reports an error (the
`TypeError` of reading `null.body`) and keeps the earlier alerts instead of
showing the empty list. -/
theorem fetchAlerts_null_json_reports_error :
    hasField .null "body" = false ∧ hasField .null "items" = false ∧ statusOk 200 = true ∧
    (fetchAlerts referencePlatform 5 (.response 200 (.ok .null))
        { State.initial with alerts := .arr [.str "earlier"] }).error
      = some "Cannot read properties of null (reading body)" ∧
    (fetchAlerts referencePlatform 5 (.response 200 (.ok .null))
        { State.initial with alerts := .arr [.str "earlier"] }).alerts
      = .arr [.str "earlier"] ∧
    Json.arr [.str "earlier"] ≠ .arr [] := by
  refine ⟨rfl, rfl, by decide, rfl, rfl, ?_⟩
  intro h
  cases h

/-- C2, amended: for every 2xx alerts response whose JSON is not the literal
`null` and has neither a `body` field nor an `items` field, `fetchAlerts` sets
the displayed alert collection to the empty list and leaves the error state
`null`, from every prior state. -/
theorem fetchAlerts_neither_field_empty (P : Platform) (status now : Nat) (data : Json)
    (s : State) (hok : statusOk status = true) (hnull : data ≠ .null)
    (hbody : hasField data "body" = false) (hitems : hasField data "items" = false) :
    (fetchAlerts P now (.response status (.ok data)) s).alerts = .arr [] ∧
    (fetchAlerts P now (.response status (.ok data)) s).error = none := by
  have h : fetchAlertsTry P (.response status (.ok data)) = .ok (.arr []) := by
    simp [fetchAlertsTry, hok, fetchAlertsItems_no_fields P data hnull hbody hitems]
  rw [fetchAlerts_eq, fetchAlertsSettle_ok P _ _ _ _ h]
  exact ⟨rfl, rfl⟩

/-- C2, instance: an object with an unrelated field only, arriving while an
error and earlier alerts are shown. -/
theorem fetchAlerts_neither_field_empty_witness :
    (fetchAlerts referencePlatform 5 (.response 200 (.ok (.obj [("message", .str "ok")])))
        { State.initial with alerts := .arr [.str "earlier"], error := some "old" }).alerts
      = .arr [] ∧
    (fetchAlerts referencePlatform 5 (.response 200 (.ok (.obj [("message", .str "ok")])))
        { State.initial with alerts := .arr [.str "earlier"], error := some "old" }).error
      = none :=
  fetchAlerts_neither_field_empty referencePlatform 200 5 (.obj [("message", .str "ok")])
    { State.initial with alerts := .arr [.str "earlier"], error := some "old" }
    (by decide) (fun h => Json.noConfusion h) rfl rfl

/-- C3: for every prior state, a fetch that fails by a network exception sets
the error message to the exception text, a fetch answered with a non-2xx status
sets it to `API Error: ` followed by the status code, and in both cases the
displayed alert collection and the last-update timestamp stay as they were. -/
theorem fetchAlerts_failure_keeps_alerts (P : Platform) (now : Nat) (s : State)
    (message : String) (status : Nat) (json : Except String Json)
    (hbad : statusOk status = false) :
    ((fetchAlerts P now (.networkError message) s).error = some message ∧
      (fetchAlerts P now (.networkError message) s).alerts = s.alerts ∧
      (fetchAlerts P now (.networkError message) s).lastUpdate = s.lastUpdate) ∧
    ((fetchAlerts P now (.response status json) s).error
        = some ("API Error: " ++ toString status) ∧
      (fetchAlerts P now (.response status json) s).alerts = s.alerts ∧
      (fetchAlerts P now (.response status json) s).lastUpdate = s.lastUpdate) := by
  have h₁ : fetchAlertsTry P (.networkError message) = .error message := rfl
  have h₂ : fetchAlertsTry P (.response status json)
      = .error ("API Error: " ++ toString status) := by
    simp [fetchAlertsTry, hbad]
  rw [fetchAlerts_eq, fetchAlerts_eq, fetchAlertsSettle_error P _ _ _ _ h₁,
    fetchAlertsSettle_error P _ _ _ _ h₂]
  exact ⟨⟨rfl, rfl, rfl⟩, ⟨rfl, rfl, rfl⟩⟩

/-- C3, instance: a dropped connection and a 503 answer while one alert is
shown. -/
theorem fetchAlerts_failure_keeps_alerts_witness :
    ((fetchAlerts referencePlatform 8 (.networkError "Failed to fetch")
        { State.initial with alerts := .arr [.str "a"], lastUpdate := some 3 }).error
        = some "Failed to fetch" ∧
      (fetchAlerts referencePlatform 8 (.networkError "Failed to fetch")
        { State.initial with alerts := .arr [.str "a"], lastUpdate := some 3 }).alerts
        = .arr [.str "a"] ∧
      (fetchAlerts referencePlatform 8 (.networkError "Failed to fetch")
        { State.initial with alerts := .arr [.str "a"], lastUpdate := some 3 }).lastUpdate
        = some 3) ∧
    ((fetchAlerts referencePlatform 8 (.response 503 (.ok (.obj [("items", .arr [])])))
        { State.initial with alerts := .arr [.str "a"], lastUpdate := some 3 }).error
        = some ("API Error: " ++ toString 503) ∧
      (fetchAlerts referencePlatform 8 (.response 503 (.ok (.obj [("items", .arr [])])))
        { State.initial with alerts := .arr [.str "a"], lastUpdate := some 3 }).alerts
        = .arr [.str "a"] ∧
      (fetchAlerts referencePlatform 8 (.response 503 (.ok (.obj [("items", .arr [])])))
        { State.initial with alerts := .arr [.str "a"], lastUpdate := some 3 }).lastUpdate
        = some 3) :=
  fetchAlerts_failure_keeps_alerts referencePlatform 8
    { State.initial with alerts := .arr [.str "a"], lastUpdate := some 3 }
    "Failed to fetch" 503 (.ok (.obj [("items", .arr [])])) (by decide)

theorem pollRun_append (P : Platform) (s : State) (events : List PollEvent) (e : PollEvent) :
    pollRun P s (events ++ [e]) = pollStep P (pollRun P s events) e := by
  simp [pollRun, List.foldl_append]

theorem pollStep_alerts (P : Platform) (s : State) (e : PollEvent) :
    (pollStep P s e).alerts = (successItems P e).getD s.alerts := by
  cases e with
  | started => rfl
  | settled now outcome =>
    simp only [pollStep, successItems, fetchAlertsSettle]
    cases fetchAlertsTry P outcome <;> rfl

theorem pollRun_alerts (P : Platform) (events : List PollEvent) (s : State) :
    (pollRun P s events).alerts = (lastSuccessItems P events).getD s.alerts := by
  induction events generalizing s with
  | nil => rfl
  | cons e rest ih =>
    have hstep : pollRun P s (e :: rest) = pollRun P (pollStep P s e) rest := rfl
    rw [hstep, ih, pollStep_alerts]
    simp only [lastSuccessItems]
    cases lastSuccessItems P rest <;> rfl

/-- C4: after any sequence of poll events (calls starting, responses arriving
in any order) from any state, the displayed alert collection is exactly the
items of the most recently arrived successful response (the prior collection
when none was successful); a further response that is successful replaces the
whole collection by its own items and clears the error state, one that fails
keeps the collection and sets the error; and the items of a 2xx response
`{items: L}` are `L` itself. -/
theorem alerts_are_last_successful_response (P : Platform) (s : State)
    (events : List PollEvent) (now : Nat) (outcome : FetchOutcome)
    (status : Nat) (L : List Json) :
    (pollRun P s events).alerts = (lastSuccessItems P events).getD s.alerts ∧
    (match fetchAlertsTry P outcome with
      | .ok items =>
        (pollRun P s (events ++ [.settled now outcome])).alerts = items ∧
        (pollRun P s (events ++ [.settled now outcome])).error = none
      | .error m =>
        (pollRun P s (events ++ [.settled now outcome])).alerts = (pollRun P s events).alerts ∧
        (pollRun P s (events ++ [.settled now outcome])).error = some m) ∧
    (if statusOk status = true then
      successItems P (.settled now (.response status (.ok (.obj [("items", .arr L)]))))
        = some (.arr L)
    else
      successItems P (.settled now (.response status (.ok (.obj [("items", .arr L)]))))
        = none) := by
  refine ⟨pollRun_alerts P events s, ?_, ?_⟩
  · rw [pollRun_append]
    simp only [pollStep, fetchAlertsSettle]
    cases fetchAlertsTry P outcome <;> exact ⟨rfl, rfl⟩
  · by_cases hok : statusOk status = true
    · simp [hok, successItems, fetchAlertsTry_direct P status L hok]
    · simp [hok, successItems, fetchAlertsTry]

/-! ## Auto-refresh effect -/

/-- The effect, run when no interval is registered, leaves exactly the interval
its cleanup will clear, and leaves one exactly when `autoRefresh` holds. -/
theorem runEffect_owned (d : Dashboard) (hi : d.intervals = []) :
    (Dashboard.runEffect d).intervals
        = (match (Dashboard.runEffect d).cleanup with
          | some id => [(id, 5000)]
          | none => []) ∧
      (Dashboard.runEffect d).cleanup.isSome = (Dashboard.runEffect d).state.autoRefresh ∧
      (Dashboard.runEffect d).state.autoRefresh = d.state.autoRefresh ∧
      (Dashboard.runEffect d).requests = d.requests ++ [alertsRequest] := by
  unfold Dashboard.runEffect Dashboard.callFetchAlerts fetchAlertsStart
  cases h : d.state.autoRefresh <;> simp [h, hi]

/-- The cleanup clears the interval that the last run of the effect set. -/
theorem runCleanup_clears (d : Dashboard)
    (hi : d.intervals = (match d.cleanup with
      | some id => [(id, 5000)]
      | none => [])) :
    (Dashboard.runCleanup d).intervals = [] ∧
      (Dashboard.runCleanup d).state = d.state ∧
      (Dashboard.runCleanup d).requests = d.requests := by
  unfold Dashboard.runCleanup
  cases hc : d.cleanup with
  | none => simpa [hc] using hi
  | some id => simp [hc] at hi ⊢; simp [hi]

theorem toggleLive_owned (d : Dashboard)
    (hi : d.intervals = (match d.cleanup with
      | some id => [(id, 5000)]
      | none => [])) :
    (Dashboard.toggleLive d).intervals
        = (match (Dashboard.toggleLive d).cleanup with
          | some id => [(id, 5000)]
          | none => []) ∧
      (Dashboard.toggleLive d).cleanup.isSome = (Dashboard.toggleLive d).state.autoRefresh ∧
      (Dashboard.toggleLive d).state.autoRefresh = !d.state.autoRefresh ∧
      (Dashboard.toggleLive d).requests = d.requests ++ [alertsRequest] := by
  have hc := runCleanup_clears
    { d with state := { d.state with autoRefresh := !d.state.autoRefresh } } hi
  have he := runEffect_owned _ hc.1
  refine ⟨he.1, he.2.1, ?_, ?_⟩
  · unfold Dashboard.toggleLive
    rw [he.2.2.1, hc.2.1]
  · unfold Dashboard.toggleLive
    rw [he.2.2.2, hc.2.2]

/-- Invariant of the mounted component: the registered intervals are exactly
the one owned by the cleanup of the last effect run, present exactly when the
live flag is on. -/
theorem run_owned (P : Platform) (events : List Event) :
    (Dashboard.run P events).intervals
        = (match (Dashboard.run P events).cleanup with
          | some id => [(id, 5000)]
          | none => []) ∧
      (Dashboard.run P events).cleanup.isSome = (Dashboard.run P events).state.autoRefresh := by
  induction events using List.reverseRecOn with
  | nil =>
    have h := runEffect_owned
      { state := State.initial, intervals := [], cleanup := none, nextTimerId := 1,
        requests := [] } rfl
    exact ⟨h.1, h.2.1⟩
  | append_singleton events e ih =>
    have hrun : Dashboard.run P (events ++ [e])
        = Dashboard.step P (Dashboard.run P events) e := by
      simp [Dashboard.run, List.foldl_append]
    rw [hrun]
    cases e with
    | toggleLive =>
      have h := toggleLive_owned _ ih.1
      exact ⟨h.1, h.2.1⟩
    | refresh => exact ih
    | tick id =>
      simp only [Dashboard.step, Dashboard.tick]
      split
      · exact ih
      · exact ih
    | alertsResponse now outcome =>
      refine ⟨ih.1, ?_⟩
      simp only [Dashboard.step, fetchAlertsSettle]
      cases fetchAlertsTry P outcome <;> exact ih.2

/-- C5, counterexample: on the freshly mounted component the live flag is on,
one request has been issued and one interval is active; toggling the flag off
clears the interval and issues a second request, toggling it on again a third
one, so the off-on pair issues two immediate fetches instead of one. -/
theorem toggle_off_issues_fetch :
    Dashboard.mount.state.autoRefresh = true ∧
    Dashboard.mount.requests.length = 1 ∧
    Dashboard.mount.intervals = [(1, 5000)] ∧
    Dashboard.mount.toggleLive.state.autoRefresh = false ∧
    Dashboard.mount.toggleLive.intervals = [] ∧
    Dashboard.mount.toggleLive.requests.length = 2 ∧
    Dashboard.mount.toggleLive.toggleLive.state.autoRefresh = true ∧
    Dashboard.mount.toggleLive.toggleLive.requests.length = 3 := by
  decide

/-- C5, amended: from every state of the mounted component in which the live
flag is on, toggling the flag off clears the interval and issues one immediate
fetch of the alerts endpoint, and toggling it on again issues one more
immediate fetch and registers one new 5000 ms interval: the off-on pair issues
exactly two immediate fetches and leaves exactly one active interval. -/
theorem toggle_off_on_fetches_twice (P : Platform) (events : List Event)
    (hlive : (Dashboard.run P events).state.autoRefresh = true) :
    (Dashboard.run P events).toggleLive.state.autoRefresh = false ∧
    (Dashboard.run P events).toggleLive.intervals = [] ∧
    (Dashboard.run P events).toggleLive.requests
      = (Dashboard.run P events).requests ++ [alertsRequest] ∧
    (Dashboard.run P events).toggleLive.toggleLive.state.autoRefresh = true ∧
    (Dashboard.run P events).toggleLive.toggleLive.requests
      = (Dashboard.run P events).requests ++ [alertsRequest, alertsRequest] ∧
    (Dashboard.run P events).toggleLive.toggleLive.pollingIntervals.length = 1 ∧
    (Dashboard.run P events).toggleLive.toggleLive.intervals.length = 1 := by
  have h₀ := run_owned P events
  have h₁ := toggleLive_owned _ h₀.1
  have h₂ := toggleLive_owned _ h₁.1
  have hoff : (Dashboard.run P events).toggleLive.state.autoRefresh = false := by
    rw [h₁.2.2.1, hlive]; rfl
  have hon : (Dashboard.run P events).toggleLive.toggleLive.state.autoRefresh = true := by
    rw [h₂.2.2.1, hoff]; rfl
  have hnone : (Dashboard.run P events).toggleLive.cleanup = none := by
    have h := h₁.2.1
    rw [hoff] at h
    cases hc : (Dashboard.run P events).toggleLive.cleanup with
    | none => rfl
    | some id => rw [hc] at h; cases h
  obtain ⟨id, hid⟩ : ∃ id, (Dashboard.run P events).toggleLive.toggleLive.cleanup = some id := by
    have h := h₂.2.1
    rw [hon] at h
    cases hc : (Dashboard.run P events).toggleLive.toggleLive.cleanup with
    | none => rw [hc] at h; cases h
    | some id => exact ⟨id, rfl⟩
  have hints : (Dashboard.run P events).toggleLive.toggleLive.intervals = [(id, 5000)] := by
    rw [h₂.1, hid]
  refine ⟨hoff, ?_, h₁.2.2.2, hon, ?_, ?_, ?_⟩
  · rw [h₁.1, hnone]
  · rw [h₂.2.2.2, h₁.2.2.2, List.append_assoc]; rfl
  · simp [Dashboard.pollingIntervals, hints]
  · simp [hints]

/-- C5, instance: the off-on pair right after mount. -/
theorem toggle_off_on_fetches_twice_witness :
    (Dashboard.run referencePlatform []).toggleLive.state.autoRefresh = false ∧
    (Dashboard.run referencePlatform []).toggleLive.intervals = [] ∧
    (Dashboard.run referencePlatform []).toggleLive.requests
      = (Dashboard.run referencePlatform []).requests ++ [alertsRequest] ∧
    (Dashboard.run referencePlatform []).toggleLive.toggleLive.state.autoRefresh = true ∧
    (Dashboard.run referencePlatform []).toggleLive.toggleLive.requests
      = (Dashboard.run referencePlatform []).requests ++ [alertsRequest, alertsRequest] ∧
    (Dashboard.run referencePlatform []).toggleLive.toggleLive.pollingIntervals.length = 1 ∧
    (Dashboard.run referencePlatform []).toggleLive.toggleLive.intervals.length = 1 :=
  toggle_off_on_fetches_twice referencePlatform [] (by decide)

/-- C6: in every state reached from mount by any sequence of live-flag toggles,
manual refreshes, timer ticks and arriving responses, every registered interval
has period 5000 ms, at most one is active, and one is active exactly when the
live flag is on. -/
theorem at_most_one_polling_interval (P : Platform) (events : List Event) :
    (Dashboard.run P events).pollingIntervals = (Dashboard.run P events).intervals ∧
    (Dashboard.run P events).pollingIntervals.length ≤ 1 ∧
    ((Dashboard.run P events).pollingIntervals.length = 1
      ↔ (Dashboard.run P events).state.autoRefresh = true) := by
  have h := run_owned P events
  cases hc : (Dashboard.run P events).cleanup with
  | none =>
    have hi : (Dashboard.run P events).intervals = [] := by rw [h.1, hc]
    have hoff : (Dashboard.run P events).state.autoRefresh = false := by
      rw [← h.2, hc]; rfl
    simp [Dashboard.pollingIntervals, hi, hoff]
  | some id =>
    have hi : (Dashboard.run P events).intervals = [(id, 5000)] := by rw [h.1, hc]
    have hon : (Dashboard.run P events).state.autoRefresh = true := by
      rw [← h.2, hc]; rfl
    simp [Dashboard.pollingIntervals, hi, hon]

/-! ## Upload coordinator -/

/-- C7: for every file whose declared media type does not start with `image/`,
and for a missing file, `handleFileSelect` sets the validation error message
and leaves the selected file and the preview as they were, so that from a state
with no selection no preview is populated; the same holds on the drop path. -/
theorem handleFileSelect_rejects_non_image (P : Platform) (file : Option File) (s : State)
    (hbad : ∀ f, file = some f → startsWith f.type "image/" = false) :
    (handleFileSelect P file s).uploadError = some "Please select a valid image file" ∧
    (handleFileSelect P file s).selectedFile = s.selectedFile ∧
    (handleFileSelect P file s).previewUrl = s.previewUrl ∧
    (s.previewUrl = none → (handleFileSelect P file s).previewUrl = none) ∧
    (handleDrop P file s).uploadError = some "Please select a valid image file" ∧
    (handleDrop P file s).selectedFile = s.selectedFile ∧
    (handleDrop P file s).previewUrl = s.previewUrl := by
  cases file with
  | none => exact ⟨rfl, rfl, rfl, fun h => h, rfl, rfl, rfl⟩
  | some f =>
    have h := hbad f rfl
    simp only [handleDrop, handleFileSelect, h]
    exact ⟨rfl, rfl, rfl, fun h => h, rfl, rfl, rfl⟩

/-- C7, instance: a PDF picked while nothing is selected. -/
theorem handleFileSelect_rejects_non_image_witness :
    (handleFileSelect referencePlatform (some ⟨"notes.pdf", "application/pdf", [37, 80]⟩)
        State.initial).uploadError = some "Please select a valid image file" ∧
    (handleFileSelect referencePlatform (some ⟨"notes.pdf", "application/pdf", [37, 80]⟩)
        State.initial).selectedFile = State.initial.selectedFile ∧
    (handleFileSelect referencePlatform (some ⟨"notes.pdf", "application/pdf", [37, 80]⟩)
        State.initial).previewUrl = State.initial.previewUrl ∧
    (State.initial.previewUrl = none →
      (handleFileSelect referencePlatform (some ⟨"notes.pdf", "application/pdf", [37, 80]⟩)
        State.initial).previewUrl = none) ∧
    (handleDrop referencePlatform (some ⟨"notes.pdf", "application/pdf", [37, 80]⟩)
        State.initial).uploadError = some "Please select a valid image file" ∧
    (handleDrop referencePlatform (some ⟨"notes.pdf", "application/pdf", [37, 80]⟩)
        State.initial).selectedFile = State.initial.selectedFile ∧
    (handleDrop referencePlatform (some ⟨"notes.pdf", "application/pdf", [37, 80]⟩)
        State.initial).previewUrl = State.initial.previewUrl :=
  handleFileSelect_rejects_non_image referencePlatform
    (some ⟨"notes.pdf", "application/pdf", [37, 80]⟩) State.initial
    (fun f h => by cases h; decide)

/-- The exception of the `try` block of `handleUpload` is the first failing
step of the upload. -/
theorem handleUploadTry_result (P : Platform) (file : File) (post put : FetchOutcome) :
    (handleUploadTry P file post put).2
      = (match firstUploadFailure P post put with
        | some m => .error m
        | none => .ok ()) := by
  unfold handleUploadTry firstUploadFailure
  cases post with
  | networkError m => rfl
  | response status json =>
    cases hs : statusOk status with
    | false => simp [requestFailure, hs]
    | true =>
      cases json with
      | error m => simp [requestFailure, bodyFailure, hs]
      | ok data =>
        cases ht : uploadTarget P data with
        | error m => simp [requestFailure, bodyFailure, hs, ht]
        | ok url =>
          cases put with
          | networkError m => simp [requestFailure, bodyFailure, hs, ht]
          | response putStatus putJson =>
            cases hp : statusOk putStatus <;> simp [requestFailure, bodyFailure, hs, ht, hp]

/-- The first request of the upload is always the signed-URL POST. -/
theorem handleUploadTry_requests (P : Platform) (file : File) (post put : FetchOutcome) :
    (handleUploadTry P file post put).1 = [uploadPostRequest P file] ∨
    ∃ url, (handleUploadTry P file post put).1
      = [uploadPostRequest P file, uploadPutRequest file url] ∧
      post.failed = false ∧ bodyFailure P post = none := by
  unfold handleUploadTry
  cases post with
  | networkError m => exact Or.inl rfl
  | response status json =>
    cases hs : statusOk status with
    | false => exact Or.inl (by simp [hs])
    | true =>
      cases json with
      | error m => exact Or.inl (by simp [hs])
      | ok data =>
        cases ht : uploadTarget P data with
        | error m => exact Or.inl (by simp [hs, ht])
        | ok url =>
          refine Or.inr ⟨url, ?_, by simp [FetchOutcome.failed, hs], by simp [bodyFailure, ht]⟩
          cases put with
          | networkError m => simp [hs, ht]
          | response putStatus putJson => cases hp : statusOk putStatus <;> simp [hs, ht, hp]

theorem handleUpload_requests (P : Platform) (post put : FetchOutcome) (s : State) (file : File)
    (hsel : s.selectedFile = some file) :
    (handleUpload P post put s).requests = (handleUploadTry P file post put).1 := by
  simp only [handleUpload, hsel]
  split <;> simp_all

/-- C8: for every selected file, when the signed-URL POST fails (network
exception or non-2xx status), the requests issued by `handleUpload` are the
POST alone: no PUT is attempted. -/
theorem handleUpload_failed_post_no_put (P : Platform) (post put : FetchOutcome) (s : State)
    (file : File) (hsel : s.selectedFile = some file) (hfail : post.failed = true) :
    (handleUpload P post put s).requests = [uploadPostRequest P file] ∧
    ∀ r ∈ (handleUpload P post put s).requests, r.method ≠ "PUT" := by
  have hreq : (handleUpload P post put s).requests = [uploadPostRequest P file] := by
    rw [handleUpload_requests P post put s file hsel]
    rcases handleUploadTry_requests P file post put with h | ⟨url, -, hok, -⟩
    · exact h
    · rw [hfail] at hok; cases hok
  refine ⟨hreq, ?_⟩
  intro r hr
  rw [hreq, List.mem_singleton] at hr
  rw [hr]
  show "POST" ≠ "PUT"
  decide

/-- C8, instance: the signed-URL request is answered 403 for a selected PNG. -/
theorem handleUpload_failed_post_no_put_witness :
    (handleUpload referencePlatform (.response 403 (.ok (.obj [])))
        (.response 200 (.ok .null))
        { State.initial with
          selectedFile := some ⟨"cam.png", "image/png", [137, 80]⟩
          previewUrl := some "blob:cam.png" }).requests
      = [uploadPostRequest referencePlatform ⟨"cam.png", "image/png", [137, 80]⟩] ∧
    ∀ r ∈ (handleUpload referencePlatform (.response 403 (.ok (.obj [])))
        (.response 200 (.ok .null))
        { State.initial with
          selectedFile := some ⟨"cam.png", "image/png", [137, 80]⟩
          previewUrl := some "blob:cam.png" }).requests, r.method ≠ "PUT" :=
  handleUpload_failed_post_no_put referencePlatform (.response 403 (.ok (.obj [])))
    (.response 200 (.ok .null))
    { State.initial with
      selectedFile := some ⟨"cam.png", "image/png", [137, 80]⟩
      previewUrl := some "blob:cam.png" }
    ⟨"cam.png", "image/png", [137, 80]⟩ rfl (by decide)

theorem requestFailure_none (label : String) (outcome : FetchOutcome)
    (h : outcome.failed = false) : requestFailure label outcome = none := by
  cases outcome with
  | networkError m => cases h
  | response status json =>
    have hs : statusOk status = true := by simpa [FetchOutcome.failed] using h
    simp [requestFailure, hs]

theorem handleUpload_ok (P : Platform) (post put : FetchOutcome) (s : State) (file : File)
    (hsel : s.selectedFile = some file) (h : (handleUploadTry P file post put).2 = .ok ()) :
    handleUpload P post put s =
      { state :=
          { s with
            uploadError := none
            uploadSuccess := true
            selectedFile := none
            previewUrl := none
            uploading := false }
        requests := (handleUploadTry P file post put).1
        timers := [⟨.fetchAlerts, 3000⟩, ⟨.clearUploadSuccess, 5000⟩] } := by
  simp only [handleUpload, hsel]
  split <;> simp_all

theorem handleUpload_error (P : Platform) (post put : FetchOutcome) (s : State) (file : File)
    (m : String) (hsel : s.selectedFile = some file)
    (h : (handleUploadTry P file post put).2 = .error m) :
    handleUpload P post put s =
      { state := { s with uploadError := some m, uploading := false }
        requests := (handleUploadTry P file post put).1
        timers := [] } := by
  simp only [handleUpload, hsel]
  split <;> simp_all

/-- C9: for every selected file, when the signed-URL POST returns 2xx, the PUT
is issued and returns 2xx, `handleUpload` ends with the success flag set, the
selected file and the preview cleared, the in-flight flag false and no error,
and the timers it schedules are exactly one re-poll of alerts at 3000 ms and
one clearing of the success flag at 5000 ms. -/
theorem handleUpload_success (P : Platform) (post put : FetchOutcome) (s : State) (file : File)
    (hsel : s.selectedFile = some file)
    (hpost : post.failed = false) (hput : put.failed = false)
    (hissued : ∃ r ∈ (handleUpload P post put s).requests, r.method = "PUT") :
    (handleUpload P post put s).state.uploadSuccess = true ∧
    (handleUpload P post put s).state.selectedFile = none ∧
    (handleUpload P post put s).state.previewUrl = none ∧
    (handleUpload P post put s).state.uploading = false ∧
    (handleUpload P post put s).state.uploadError = none ∧
    (handleUpload P post put s).timers
      = [⟨.fetchAlerts, 3000⟩, ⟨.clearUploadSuccess, 5000⟩] := by
  have hbody : bodyFailure P post = none := by
    rcases handleUploadTry_requests P file post put with h | ⟨url, -, -, hb⟩
    · obtain ⟨r, hr, hm⟩ := hissued
      rw [handleUpload_requests P post put s file hsel, h, List.mem_singleton] at hr
      rw [hr] at hm
      exact absurd hm (by show "POST" ≠ "PUT"; decide)
    · exact hb
  have hnone : firstUploadFailure P post put = none := by
    simp [firstUploadFailure, requestFailure_none _ post hpost, hbody,
      requestFailure_none _ put hput]
  have htry : (handleUploadTry P file post put).2 = .ok () := by
    rw [handleUploadTry_result, hnone]
  rw [handleUpload_ok P post put s file hsel htry]
  exact ⟨rfl, rfl, rfl, rfl, rfl, rfl⟩

/-- C9, instance: a PNG uploaded to the URL of a direct-object response. -/
theorem handleUpload_success_witness :
    (handleUpload referencePlatform
        (.response 200 (.ok (.obj [("uploadUrl", .str "https://bucket.example/cam.png")])))
        (.response 200 (.error "Unexpected end of JSON input"))
        { State.initial with
          selectedFile := some ⟨"cam.png", "image/png", [137, 80]⟩
          previewUrl := some "blob:cam.png" }).state.uploadSuccess = true ∧
    (handleUpload referencePlatform
        (.response 200 (.ok (.obj [("uploadUrl", .str "https://bucket.example/cam.png")])))
        (.response 200 (.error "Unexpected end of JSON input"))
        { State.initial with
          selectedFile := some ⟨"cam.png", "image/png", [137, 80]⟩
          previewUrl := some "blob:cam.png" }).state.selectedFile = none ∧
    (handleUpload referencePlatform
        (.response 200 (.ok (.obj [("uploadUrl", .str "https://bucket.example/cam.png")])))
        (.response 200 (.error "Unexpected end of JSON input"))
        { State.initial with
          selectedFile := some ⟨"cam.png", "image/png", [137, 80]⟩
          previewUrl := some "blob:cam.png" }).state.previewUrl = none ∧
    (handleUpload referencePlatform
        (.response 200 (.ok (.obj [("uploadUrl", .str "https://bucket.example/cam.png")])))
        (.response 200 (.error "Unexpected end of JSON input"))
        { State.initial with
          selectedFile := some ⟨"cam.png", "image/png", [137, 80]⟩
          previewUrl := some "blob:cam.png" }).state.uploading = false ∧
    (handleUpload referencePlatform
        (.response 200 (.ok (.obj [("uploadUrl", .str "https://bucket.example/cam.png")])))
        (.response 200 (.error "Unexpected end of JSON input"))
        { State.initial with
          selectedFile := some ⟨"cam.png", "image/png", [137, 80]⟩
          previewUrl := some "blob:cam.png" }).state.uploadError = none ∧
    (handleUpload referencePlatform
        (.response 200 (.ok (.obj [("uploadUrl", .str "https://bucket.example/cam.png")])))
        (.response 200 (.error "Unexpected end of JSON input"))
        { State.initial with
          selectedFile := some ⟨"cam.png", "image/png", [137, 80]⟩
          previewUrl := some "blob:cam.png" }).timers
      = [⟨.fetchAlerts, 3000⟩, ⟨.clearUploadSuccess, 5000⟩] :=
  handleUpload_success referencePlatform
    (.response 200 (.ok (.obj [("uploadUrl", .str "https://bucket.example/cam.png")])))
    (.response 200 (.error "Unexpected end of JSON input"))
    { State.initial with
      selectedFile := some ⟨"cam.png", "image/png", [137, 80]⟩
      previewUrl := some "blob:cam.png" }
    ⟨"cam.png", "image/png", [137, 80]⟩ rfl (by decide) (by decide)
    ⟨uploadPutRequest ⟨"cam.png", "image/png", [137, 80]⟩
        (some (.str "https://bucket.example/cam.png")),
      List.mem_cons_of_mem _ (List.mem_singleton.mpr rfl), rfl⟩

/-- C10: for every selected file, when the upload fails at some phase (the
signed-URL request, the body of its response, or the transfer), the error
message is the one of the first failing step, the success flag is left as it
was (not set), no timer is scheduled, the in-flight flag ends false, and the
selected file and the preview are exactly as before the upload. -/
theorem handleUpload_failure (P : Platform) (post put : FetchOutcome) (s : State) (file : File)
    (m : String) (hsel : s.selectedFile = some file)
    (hfail : firstUploadFailure P post put = some m) :
    (handleUpload P post put s).state.uploadError = some m ∧
    (handleUpload P post put s).state.uploadSuccess = s.uploadSuccess ∧
    (handleUpload P post put s).timers = [] ∧
    (handleUpload P post put s).state.uploading = false ∧
    (handleUpload P post put s).state.selectedFile = some file ∧
    (handleUpload P post put s).state.previewUrl = s.previewUrl := by
  have htry : (handleUploadTry P file post put).2 = .error m := by
    rw [handleUploadTry_result, hfail]
  rw [handleUpload_error P post put s file m hsel htry]
  exact ⟨rfl, rfl, rfl, rfl, hsel, rfl⟩

/-- C10, instance: the signed URL is issued but the transfer is answered 403. -/
theorem handleUpload_failure_witness :
    (handleUpload referencePlatform
        (.response 200 (.ok (.obj [("uploadUrl", .str "https://bucket.example/cam.png")])))
        (.response 403 (.ok .null))
        { State.initial with
          selectedFile := some ⟨"cam.png", "image/png", [137, 80]⟩
          previewUrl := some "blob:cam.png" }).state.uploadError
      = some ("Upload failed: " ++ toString 403) ∧
    (handleUpload referencePlatform
        (.response 200 (.ok (.obj [("uploadUrl", .str "https://bucket.example/cam.png")])))
        (.response 403 (.ok .null))
        { State.initial with
          selectedFile := some ⟨"cam.png", "image/png", [137, 80]⟩
          previewUrl := some "blob:cam.png" }).state.uploadSuccess = false ∧
    (handleUpload referencePlatform
        (.response 200 (.ok (.obj [("uploadUrl", .str "https://bucket.example/cam.png")])))
        (.response 403 (.ok .null))
        { State.initial with
          selectedFile := some ⟨"cam.png", "image/png", [137, 80]⟩
          previewUrl := some "blob:cam.png" }).timers = [] ∧
    (handleUpload referencePlatform
        (.response 200 (.ok (.obj [("uploadUrl", .str "https://bucket.example/cam.png")])))
        (.response 403 (.ok .null))
        { State.initial with
          selectedFile := some ⟨"cam.png", "image/png", [137, 80]⟩
          previewUrl := some "blob:cam.png" }).state.uploading = false ∧
    (handleUpload referencePlatform
        (.response 200 (.ok (.obj [("uploadUrl", .str "https://bucket.example/cam.png")])))
        (.response 403 (.ok .null))
        { State.initial with
          selectedFile := some ⟨"cam.png", "image/png", [137, 80]⟩
          previewUrl := some "blob:cam.png" }).state.selectedFile
      = some ⟨"cam.png", "image/png", [137, 80]⟩ ∧
    (handleUpload referencePlatform
        (.response 200 (.ok (.obj [("uploadUrl", .str "https://bucket.example/cam.png")])))
        (.response 403 (.ok .null))
        { State.initial with
          selectedFile := some ⟨"cam.png", "image/png", [137, 80]⟩
          previewUrl := some "blob:cam.png" }).state.previewUrl = some "blob:cam.png" :=
  handleUpload_failure referencePlatform
    (.response 200 (.ok (.obj [("uploadUrl", .str "https://bucket.example/cam.png")])))
    (.response 403 (.ok .null))
    { State.initial with
      selectedFile := some ⟨"cam.png", "image/png", [137, 80]⟩
      previewUrl := some "blob:cam.png" }
    ⟨"cam.png", "image/png", [137, 80]⟩ ("Upload failed: " ++ toString 403) rfl rfl

theorem uploadTarget_direct (P : Platform) (u : String) :
    uploadTarget P (.obj [("uploadUrl", .str u)]) = .ok (some (.str u)) := by
  simp [uploadTarget, getProp, List.lookup, truthy]

theorem uploadTarget_wrapped (P : Platform) (u text : String) (hne : text ≠ "")
    (hparse : P.JSONparse (some (.str text)) = .ok (.obj [("uploadUrl", .str u)])) :
    uploadTarget P (.obj [("body", .str text)]) = .ok (some (.str u)) := by
  simp [uploadTarget, getProp, List.lookup, truthy, hne, hparse]

/-- Requests of an upload whose signed-URL response is 2xx and yields a
target. -/
theorem handleUploadTry_requests_of_target (P : Platform) (file : File) (status : Nat)
    (data : Json) (url : JsVal) (put : FetchOutcome)
    (hok : statusOk status = true) (ht : uploadTarget P data = .ok url) :
    (handleUploadTry P file (.response status (.ok data)) put).1
      = [uploadPostRequest P file, uploadPutRequest file url] := by
  unfold handleUploadTry
  cases put with
  | networkError m => simp [hok, ht]
  | response putStatus putJson => cases hp : statusOk putStatus <;> simp [hok, ht, hp]

/-- C11: for every selected file and every upload URL `u`, `handleUpload` POSTs
the JSON text of `{fileName: file.name, fileType: file.type}` to the upload
endpoint and, whether the 2xx response is `{uploadUrl: u}` or
`{body: JSON.stringify({uploadUrl: u})}`, then issues the same PUT: to `u`,
with the file as body and the file's declared type as `Content-Type`.  The
platform fact used is that `JSON.parse` reads the text written by
`JSON.stringify` for `{uploadUrl: u}` back as that value. -/
theorem handleUpload_same_put_for_both_shapes (P : Platform) (file : File) (u : String)
    (status₁ status₂ : Nat) (put₁ put₂ : FetchOutcome) (s₁ s₂ : State)
    (hsel₁ : s₁.selectedFile = some file) (hsel₂ : s₂.selectedFile = some file)
    (hok₁ : statusOk status₁ = true) (hok₂ : statusOk status₂ = true)
    (hne : P.JSONstringify (.obj [("uploadUrl", .str u)]) ≠ "")
    (hparse : P.JSONparse (some (.str (P.JSONstringify (.obj [("uploadUrl", .str u)]))))
      = .ok (.obj [("uploadUrl", .str u)])) :
    (handleUpload P (.response status₁ (.ok (.obj [("uploadUrl", .str u)]))) put₁ s₁).requests
      = [uploadPostRequest P file, uploadPutRequest file (some (.str u))] ∧
    (handleUpload P (.response status₂ (.ok (.obj
        [("body", .str (P.JSONstringify (.obj [("uploadUrl", .str u)])))]))) put₂ s₂).requests
      = [uploadPostRequest P file, uploadPutRequest file (some (.str u))] ∧
    ((uploadPostRequest P file).method = "POST" ∧
      (uploadPostRequest P file).url = some (.str UPLOAD_ENDPOINT) ∧
      (uploadPostRequest P file).headers = [("Content-Type", "application/json")] ∧
      (uploadPostRequest P file).body
        = .text (P.JSONstringify
            (.obj [("fileName", .str file.name), ("fileType", .str file.type)]))) ∧
    ((uploadPutRequest file (some (.str u))).method = "PUT" ∧
      (uploadPutRequest file (some (.str u))).url = some (.str u) ∧
      (uploadPutRequest file (some (.str u))).headers = [("Content-Type", file.type)] ∧
      (uploadPutRequest file (some (.str u))).body = .file file) := by
  refine ⟨?_, ?_, ⟨rfl, rfl, rfl, rfl⟩, ⟨rfl, rfl, rfl, rfl⟩⟩
  · rw [handleUpload_requests P _ put₁ s₁ file hsel₁]
    exact handleUploadTry_requests_of_target P file status₁ _ _ put₁ hok₁
      (uploadTarget_direct P u)
  · rw [handleUpload_requests P _ put₂ s₂ file hsel₂]
    exact handleUploadTry_requests_of_target P file status₂ _ _ put₂ hok₂
      (uploadTarget_wrapped P u _ hne hparse)

/-- C11, instance: one PNG, the direct and the wrapped response, on the
reference platform. -/
theorem handleUpload_same_put_for_both_shapes_witness :
    (handleUpload referencePlatform
        (.response 200 (.ok (.obj [("uploadUrl", .str "https://bucket.example/cam.png")])))
        (.response 200 (.ok .null))
        { State.initial with selectedFile := some ⟨"cam.png", "image/png", [137, 80]⟩ }).requests
      = [uploadPostRequest referencePlatform ⟨"cam.png", "image/png", [137, 80]⟩,
          uploadPutRequest ⟨"cam.png", "image/png", [137, 80]⟩
            (some (.str "https://bucket.example/cam.png"))] ∧
    (handleUpload referencePlatform
        (.response 201 (.ok (.obj [("body", .str (referencePlatform.JSONstringify
          (.obj [("uploadUrl", .str "https://bucket.example/cam.png")])))])))
        (.networkError "Failed to fetch")
        { State.initial with selectedFile := some ⟨"cam.png", "image/png", [137, 80]⟩ }).requests
      = [uploadPostRequest referencePlatform ⟨"cam.png", "image/png", [137, 80]⟩,
          uploadPutRequest ⟨"cam.png", "image/png", [137, 80]⟩
            (some (.str "https://bucket.example/cam.png"))] ∧
    ((uploadPostRequest referencePlatform ⟨"cam.png", "image/png", [137, 80]⟩).method = "POST" ∧
      (uploadPostRequest referencePlatform ⟨"cam.png", "image/png", [137, 80]⟩).url
        = some (.str UPLOAD_ENDPOINT) ∧
      (uploadPostRequest referencePlatform ⟨"cam.png", "image/png", [137, 80]⟩).headers
        = [("Content-Type", "application/json")] ∧
      (uploadPostRequest referencePlatform ⟨"cam.png", "image/png", [137, 80]⟩).body
        = .text (referencePlatform.JSONstringify
            (.obj [("fileName", .str "cam.png"), ("fileType", .str "image/png")]))) ∧
    ((uploadPutRequest ⟨"cam.png", "image/png", [137, 80]⟩
        (some (.str "https://bucket.example/cam.png"))).method = "PUT" ∧
      (uploadPutRequest ⟨"cam.png", "image/png", [137, 80]⟩
        (some (.str "https://bucket.example/cam.png"))).url
        = some (.str "https://bucket.example/cam.png") ∧
      (uploadPutRequest ⟨"cam.png", "image/png", [137, 80]⟩
        (some (.str "https://bucket.example/cam.png"))).headers
        = [("Content-Type", "image/png")] ∧
      (uploadPutRequest ⟨"cam.png", "image/png", [137, 80]⟩
        (some (.str "https://bucket.example/cam.png"))).body
        = .file ⟨"cam.png", "image/png", [137, 80]⟩) :=
  handleUpload_same_put_for_both_shapes referencePlatform ⟨"cam.png", "image/png", [137, 80]⟩
    "https://bucket.example/cam.png" 200 201 (.response 200 (.ok .null))
    (.networkError "Failed to fetch")
    { State.initial with selectedFile := some ⟨"cam.png", "image/png", [137, 80]⟩ }
    { State.initial with selectedFile := some ⟨"cam.png", "image/png", [137, 80]⟩ }
    rfl rfl (by decide) (by decide) (by decide) rfl

/-! ## Presentation -/

/-- The three label shapes agree when the name is not empty and the confidence
is not zero, so that neither `||` falls through. -/
theorem renderLabel_shapes_agree (P : Platform) (toNumber : Json → Option Decimal)
    (n : String) (c : Decimal) (hn : n ≠ "") (hc : c.mantissa ≠ 0) :
    renderLabel P toNumber (.arr [.str n, .num c])
      = .ok { label := some (.str n), confidence := .int (roundDecimal c) } ∧
    renderLabel P toNumber (.obj [("name", .str n), ("confidence", .num c)])
      = .ok { label := some (.str n), confidence := .int (roundDecimal c) } ∧
    renderLabel P toNumber (.obj [("Name", .str n), ("Confidence", .num c)])
      = .ok { label := some (.str n), confidence := .int (roundDecimal c) } := by
  refine ⟨rfl, ?_, ?_⟩
  · simp [renderLabel, getProp, List.lookup, orElse, truthy, hn, hc, mathRound]
  · simp [renderLabel, getProp, List.lookup, orElse, truthy, mathRound]

/-- C12, at the failing input: with confidence `0` the tuple `["gun", 0]` and
the object `{Name: "gun", Confidence: 0}` show the rounded confidence `0`, but
the object `{name: "gun", confidence: 0}` shows `NaN`, because
`labelData.confidence || labelData.Confidence` discards the zero; with the
confidence `97.2` of the spec's example the three shapes show `gun` and `97`. -/
theorem renderLabel_zero_confidence_is_nan (P : Platform) (toNumber : Json → Option Decimal) :
    renderLabel P toNumber (.arr [.str "gun", .num ⟨0, 0⟩])
      = .ok { label := some (.str "gun"), confidence := .int 0 } ∧
    renderLabel P toNumber (.obj [("name", .str "gun"), ("confidence", .num ⟨0, 0⟩)])
      = .ok { label := some (.str "gun"), confidence := .nan } ∧
    renderLabel P toNumber (.obj [("Name", .str "gun"), ("Confidence", .num ⟨0, 0⟩)])
      = .ok { label := some (.str "gun"), confidence := .int 0 } ∧
    renderLabel P toNumber (.arr [.str "gun", .num ⟨972, 1⟩])
      = .ok { label := some (.str "gun"), confidence := .int 97 } ∧
    renderLabel P toNumber (.obj [("name", .str "gun"), ("confidence", .num ⟨972, 1⟩)])
      = .ok { label := some (.str "gun"), confidence := .int 97 } ∧
    renderLabel P toNumber (.obj [("Name", .str "gun"), ("Confidence", .num ⟨972, 1⟩)])
      = .ok { label := some (.str "gun"), confidence := .int 97 } :=
  ⟨rfl, rfl, rfl, rfl, rfl, rfl⟩

theorem levelIs_of_ne_null (P : Platform) (level : String) (a : Json) (h : a ≠ .null) :
    levelIs P level a = .ok (hasLevel level a) := by
  cases a with
  | null => exact absurd rfl h
  | obj fields =>
    simp only [levelIs, getProp, hasLevel]
    cases hl : fields.lookup "alert_level" with
    | none => rfl
    | some v => cases v <;> rfl
  | _ => rfl

theorem countLevel_eq_countP (P : Platform) (level : String) (items : List Json)
    (hnn : ∀ a ∈ items, a ≠ .null) :
    countLevel P level items = .ok (items.countP (hasLevel level)) := by
  induction items with
  | nil => rfl
  | cons a rest ih =>
    have ha := levelIs_of_ne_null P level a (hnn a (List.mem_cons_self a rest))
    have hr := ih (fun b hb => hnn b (List.mem_cons_of_mem a hb))
    simp only [countLevel, ha, hr, List.countP_cons]
    cases hasLevel level a <;> simp

/-- C13: for every displayed alert collection (an array of alerts none of which
is `null`, so that the render does not throw), `stats` is computed, with
`total` the number of alerts, `high` the number of alerts whose `alert_level`
is `"HIGH"` and `normal` the number whose `alert_level` is `"NORMAL"`; and on
the body-wrapped response of the end-to-end scenario, read by the reference
codec, the stats after `fetchAlerts` are total 1, high 1, normal 0. -/
theorem stats_counts_levels (P : Platform) (notArray : String) (items : List Json)
    (hnn : ∀ a ∈ items, a ≠ .null) :
    stats P notArray (.arr items)
      = .ok { total := items.length
              high := items.countP (hasLevel "HIGH")
              normal := items.countP (hasLevel "NORMAL") } ∧
    stats referencePlatform notArray
        (fetchAlerts referencePlatform 0 (.response 200 (.ok (.obj [("body", .str
          "\x7b\"items\":[\x7b\"AlertId\":\"1\",\"alert_level\":\"HIGH\",\"key\":\"gun_01.jpg\",\"timestamp\":\"2025-01-01T00:00:00Z\"\x7d]\x7d")])))
          State.initial).alerts
      = .ok { total := 1, high := 1, normal := 0 } := by
  refine ⟨?_, rfl⟩
  simp only [stats, countLevel_eq_countP P _ items hnn]

/-- C13, instance: two HIGH alerts, one NORMAL, one without a level. -/
theorem stats_counts_levels_witness :
    stats referencePlatform "alerts.filter is not a function"
        (.arr [.obj [("alert_level", .str "HIGH")], .obj [("alert_level", .str "NORMAL")],
          .obj [("alert_level", .str "HIGH")], .obj [("key", .str "x.jpg")]])
      = .ok { total := [Json.obj [("alert_level", .str "HIGH")],
                .obj [("alert_level", .str "NORMAL")],
                .obj [("alert_level", .str "HIGH")], .obj [("key", .str "x.jpg")]].length
              high := [Json.obj [("alert_level", .str "HIGH")],
                .obj [("alert_level", .str "NORMAL")],
                .obj [("alert_level", .str "HIGH")],
                .obj [("key", .str "x.jpg")]].countP (hasLevel "HIGH")
              normal := [Json.obj [("alert_level", .str "HIGH")],
                .obj [("alert_level", .str "NORMAL")],
                .obj [("alert_level", .str "HIGH")],
                .obj [("key", .str "x.jpg")]].countP (hasLevel "NORMAL") } ∧
    stats referencePlatform "alerts.filter is not a function"
        (fetchAlerts referencePlatform 0 (.response 200 (.ok (.obj [("body", .str
          "\x7b\"items\":[\x7b\"AlertId\":\"1\",\"alert_level\":\"HIGH\",\"key\":\"gun_01.jpg\",\"timestamp\":\"2025-01-01T00:00:00Z\"\x7d]\x7d")])))
          State.initial).alerts
      = .ok { total := 1, high := 1, normal := 0 } :=
  stats_counts_levels referencePlatform "alerts.filter is not a function"
    [.obj [("alert_level", .str "HIGH")], .obj [("alert_level", .str "NORMAL")],
      .obj [("alert_level", .str "HIGH")], .obj [("key", .str "x.jpg")]]
    (fun a ha => by
      simp only [List.mem_cons, List.mem_singleton, List.not_mem_nil, or_false] at ha
      rcases ha with h | h | h | h <;> rw [h] <;> exact fun e => Json.noConfusion e)

/-- C16: for every alert key and every index, `getAlertCoordinates` returns
`x` between 23 and 72 and `y` between 23 and 69, and both are the values
before the `Math.min(95, ...)` clamp, which therefore never acts. -/
theorem getAlertCoordinates_bounds (key : String) (index : Nat) :
    23 ≤ (getAlertCoordinates key index).x ∧ (getAlertCoordinates key index).x ≤ 72 ∧
    23 ≤ (getAlertCoordinates key index).y ∧ (getAlertCoordinates key index).y ≤ 69 ∧
    (getAlertCoordinates key index).x
      = (baseLocation key).x + (((index % 10) * 2 % 15 : Nat) : Int) - 7 ∧
    (getAlertCoordinates key index).y
      = (baseLocation key).y + (((index % 10) * 2 / 3 : Nat) : Int) - 7 := by
  have hx : (index % 10) * 2 % 15 ≤ 14 := by omega
  have hy : (index % 10) * 2 / 3 ≤ 6 := by omega
  have hbase : ((baseLocation key).x = 30 ∧ (baseLocation key).y = 45) ∨
      ((baseLocation key).x = 65 ∧ (baseLocation key).y = 30) ∨
      ((baseLocation key).x = 50 ∧ (baseLocation key).y = 70) ∨
      ((baseLocation key).x = 50 ∧ (baseLocation key).y = 50) := by
    unfold baseLocation
    split
    · exact Or.inl ⟨rfl, rfl⟩
    · split
      · exact Or.inr (Or.inl ⟨rfl, rfl⟩)
      · split
        · exact Or.inr (Or.inr (Or.inl ⟨rfl, rfl⟩))
        · exact Or.inr (Or.inr (Or.inr ⟨rfl, rfl⟩))
  simp only [getAlertCoordinates]
  rcases hbase with ⟨h₁, h₂⟩ | ⟨h₁, h₂⟩ | ⟨h₁, h₂⟩ | ⟨h₁, h₂⟩ <;>
    rw [h₁, h₂] <;> omega

/-! ## The component over time -/

/-- The handler run to completion is its two parts run one after the other. -/
theorem handleUpload_eq_start_settle (P : Platform) (post put : FetchOutcome) (s : State) :
    handleUpload P post put s
      = (match handleUploadStart s with
        | none => { state := s, requests := [], timers := [] }
        | some (file, s₁) => handleUploadSettle P file post put s₁) := by
  unfold handleUpload handleUploadStart handleUploadSettle
  cases s.selectedFile with
  | none => rfl
  | some file => simp only

theorem step_poll_upload_fields (P : Platform) (d : Dashboard) (e : Event) :
    (d.step P e).state.selectedFile = d.state.selectedFile ∧
    (d.step P e).state.previewUrl = d.state.previewUrl ∧
    (d.step P e).state.uploadSuccess = d.state.uploadSuccess := by
  cases e with
  | toggleLive =>
    simp only [Dashboard.step, Dashboard.toggleLive, Dashboard.runEffect,
      Dashboard.callFetchAlerts, Dashboard.runCleanup, fetchAlertsStart]
    cases d.cleanup <;> cases d.state.autoRefresh <;> exact ⟨rfl, rfl, rfl⟩
  | refresh => exact ⟨rfl, rfl, rfl⟩
  | tick id =>
    simp only [Dashboard.step, Dashboard.tick]
    split <;> exact ⟨rfl, rfl, rfl⟩
  | alertsResponse now outcome =>
    simp only [Dashboard.step, fetchAlertsSettle]
    cases fetchAlertsTry P outcome <;> exact ⟨rfl, rfl, rfl⟩

theorem selectionConsistent_of_fields (s t : State) (h : selectionConsistent s)
    (h₁ : t.selectedFile = s.selectedFile) (h₂ : t.previewUrl = s.previewUrl)
    (h₃ : t.uploadSuccess = s.uploadSuccess) : selectionConsistent t := by
  unfold selectionConsistent at *
  rw [h₁, h₂, h₃]
  exact h

theorem setState_consistent (c : Component) (s : State)
    (hc : selectionConsistent c.dash.state) (hs : selectionConsistent s) :
    selectionConsistent (c.setState s).dash.state := by
  unfold Component.setState
  split
  · exact hs
  · exact hc

theorem handleFileSelect_consistent (P : Platform) (file : Option File) (s : State)
    (h : selectionConsistent s) : selectionConsistent (handleFileSelect P file s) := by
  unfold handleFileSelect
  cases file with
  | none => exact selectionConsistent_of_fields s _ h rfl rfl rfl
  | some f =>
    simp only
    split
    · exact ⟨by simp, by simp⟩
    · exact selectionConsistent_of_fields s _ h rfl rfl rfl

theorem handleUploadSettle_consistent (P : Platform) (file : File) (post put : FetchOutcome)
    (s : State) (h : selectionConsistent s) :
    selectionConsistent (handleUploadSettle P file post put s).state := by
  unfold handleUploadSettle
  rcases handleUploadTry P file post put with ⟨requests, r⟩
  cases r with
  | ok u => exact ⟨by simp, by simp⟩
  | error m => exact selectionConsistent_of_fields s _ h rfl rfl rfl

theorem fire_consistent (c : Component) (a : TimeoutAction)
    (h : selectionConsistent c.dash.state) : selectionConsistent (c.fire a).dash.state := by
  cases a with
  | fetchAlerts =>
    exact setState_consistent c _ h (selectionConsistent_of_fields _ _ h rfl rfl rfl)
  | clearUploadSuccess =>
    exact setState_consistent c _ h ⟨h.1, by simp⟩

theorem fire_all_consistent (due : List (Nat × TimeoutAction)) (c : Component)
    (h : selectionConsistent c.dash.state) :
    selectionConsistent (due.foldl (fun acc t => acc.fire t.2) c).dash.state := by
  induction due generalizing c with
  | nil => exact h
  | cons t rest ih => exact ih _ (fire_consistent c t.2 h)

theorem step_consistent (P : Platform) (c : Component) (a : Action)
    (h : selectionConsistent c.dash.state) :
    selectionConsistent (c.step P a).dash.state := by
  cases a with
  | poll e =>
    simp only [Component.step]
    split
    · have hf := step_poll_upload_fields P c.dash e
      exact selectionConsistent_of_fields _ _ h hf.1 hf.2.1 hf.2.2
    · exact h
  | dragOver =>
    exact setState_consistent c _ h (selectionConsistent_of_fields _ _ h rfl rfl rfl)
  | dragLeave =>
    exact setState_consistent c _ h (selectionConsistent_of_fields _ _ h rfl rfl rfl)
  | drop file =>
    exact setState_consistent c _ h
      (handleFileSelect_consistent P file _ (selectionConsistent_of_fields _ _ h rfl rfl rfl))
  | fileSelect file =>
    exact setState_consistent c _ h (handleFileSelect_consistent P file _ h)
  | clearFile =>
    exact setState_consistent c _ h ⟨by simp [handleClearFile], by simp [handleClearFile]⟩
  | uploadClick =>
    simp only [Component.step, Component.uploadClick]
    split
    · cases hsel : c.dash.state.selectedFile with
      | none => simpa [handleUploadStart, hsel] using h
      | some file =>
        simp only [handleUploadStart, hsel]
        exact setState_consistent c _ h
          (selectionConsistent_of_fields _ _ h hsel.symm rfl rfl)
    · exact h
  | uploadSettle index post put =>
    simp only [Component.step, Component.uploadSettle]
    cases c.uploads[index]? with
    | none => exact h
    | some file =>
      exact setState_consistent c _ h (handleUploadSettle_consistent P file post put _ h)
  | wait ms => exact fire_all_consistent _ _ h
  | unmount =>
    simp only [Component.step, Component.unmount]
    split
    · simp only [Dashboard.runCleanup]
      cases c.dash.cleanup <;> exact h
    · exact h

/-- C17: in every state the component reaches from mount through file
selections, drops, clears, uploads that start and settle in any interleaving
(so also with a new selection made while an upload is in flight), timers
firing, poller events and unmounting, the selected file is `null` exactly when
the preview URL is `null`, and whenever the success flag is set there is no
selected file. -/
theorem selection_preview_success_consistent (P : Platform) (actions : List Action) :
    ((Component.run P actions).dash.state.selectedFile = none
      ↔ (Component.run P actions).dash.state.previewUrl = none) ∧
    ((Component.run P actions).dash.state.uploadSuccess = true
      → (Component.run P actions).dash.state.selectedFile = none) := by
  have h : selectionConsistent (Component.run P actions).dash.state := by
    induction actions using List.reverseRecOn with
    | nil =>
      show selectionConsistent Component.mount.dash.state
      exact ⟨Iff.intro (fun _ => rfl) (fun _ => rfl), fun _ => rfl⟩
    | append_singleton actions a ih =>
      have hrun : Component.run P (actions ++ [a])
          = (Component.run P actions).step P a := by
        simp [Component.run, List.foldl_append]
      rw [hrun]
      exact step_consistent P _ a ih
  exact h

/-- C17, instance: a second file is picked while the upload of the first is in
flight, then that upload succeeds. -/
theorem selection_preview_success_consistent_witness :
    ((Component.run referencePlatform
        [.fileSelect (some ⟨"cam.png", "image/png", [137, 80]⟩), .uploadClick,
          .fileSelect (some ⟨"lot.jpg", "image/jpeg", [255, 216]⟩),
          .uploadSettle 0
            (.response 200 (.ok (.obj [("uploadUrl", .str "https://bucket.example/cam.png")])))
            (.response 200 (.ok .null))]).dash.state.selectedFile = none
      ↔ (Component.run referencePlatform
        [.fileSelect (some ⟨"cam.png", "image/png", [137, 80]⟩), .uploadClick,
          .fileSelect (some ⟨"lot.jpg", "image/jpeg", [255, 216]⟩),
          .uploadSettle 0
            (.response 200 (.ok (.obj [("uploadUrl", .str "https://bucket.example/cam.png")])))
            (.response 200 (.ok .null))]).dash.state.previewUrl = none) ∧
    ((Component.run referencePlatform
        [.fileSelect (some ⟨"cam.png", "image/png", [137, 80]⟩), .uploadClick,
          .fileSelect (some ⟨"lot.jpg", "image/jpeg", [255, 216]⟩),
          .uploadSettle 0
            (.response 200 (.ok (.obj [("uploadUrl", .str "https://bucket.example/cam.png")])))
            (.response 200 (.ok .null))]).dash.state.uploadSuccess = true
      → (Component.run referencePlatform
        [.fileSelect (some ⟨"cam.png", "image/png", [137, 80]⟩), .uploadClick,
          .fileSelect (some ⟨"lot.jpg", "image/jpeg", [255, 216]⟩),
          .uploadSettle 0
            (.response 200 (.ok (.obj [("uploadUrl", .str "https://bucket.example/cam.png")])))
            (.response 200 (.ok .null))]).dash.state.selectedFile = none) :=
  selection_preview_success_consistent referencePlatform
    [.fileSelect (some ⟨"cam.png", "image/png", [137, 80]⟩), .uploadClick,
      .fileSelect (some ⟨"lot.jpg", "image/jpeg", [255, 216]⟩),
      .uploadSettle 0
        (.response 200 (.ok (.obj [("uploadUrl", .str "https://bucket.example/cam.png")])))
        (.response 200 (.ok .null))]

theorem runCleanup_cleanup (d : Dashboard) : d.runCleanup.cleanup = none := by
  unfold Dashboard.runCleanup
  cases h : d.cleanup with
  | none => simpa using h
  | some id => rfl

theorem step_poll_intervalOwned (P : Platform) (d : Dashboard) (e : Event)
    (h : d.intervalOwned) : (d.step P e).intervalOwned := by
  cases e with
  | toggleLive => exact (toggleLive_owned d h).1
  | refresh => exact h
  | tick id =>
    simp only [Dashboard.step, Dashboard.tick]
    split <;> exact h
  | alertsResponse now outcome => exact h

theorem setState_timers (c : Component) (s : State) :
    (c.setState s).dash.intervals = c.dash.intervals ∧
    (c.setState s).dash.cleanup = c.dash.cleanup ∧
    (c.setState s).mounted = c.mounted := by
  unfold Component.setState
  split <;> exact ⟨rfl, rfl, rfl⟩

theorem fire_timers (c : Component) (a : TimeoutAction) :
    (c.fire a).dash.intervals = c.dash.intervals ∧
    (c.fire a).dash.cleanup = c.dash.cleanup ∧
    (c.fire a).mounted = c.mounted := by
  cases a with
  | fetchAlerts => exact setState_timers c _
  | clearUploadSuccess => exact setState_timers c _

theorem fire_all_timers (due : List (Nat × TimeoutAction)) (c : Component) :
    (due.foldl (fun acc t => acc.fire t.2) c).dash.intervals = c.dash.intervals ∧
    (due.foldl (fun acc t => acc.fire t.2) c).dash.cleanup = c.dash.cleanup ∧
    (due.foldl (fun acc t => acc.fire t.2) c).mounted = c.mounted := by
  induction due generalizing c with
  | nil => exact ⟨rfl, rfl, rfl⟩
  | cons t rest ih =>
    have h₁ := ih (c.fire t.2)
    have h₂ := fire_timers c t.2
    exact ⟨h₁.1.trans h₂.1, h₁.2.1.trans h₂.2.1, h₁.2.2.trans h₂.2.2⟩

/-- Every event other than a poller event and unmounting leaves the interval,
the cleanup and the mounted flag alone. -/
theorem step_timers (P : Platform) (c : Component) (a : Action)
    (hp : ∀ e, a ≠ .poll e) (hu : a ≠ .unmount) :
    (c.step P a).dash.intervals = c.dash.intervals ∧
    (c.step P a).dash.cleanup = c.dash.cleanup ∧
    (c.step P a).mounted = c.mounted := by
  cases a with
  | poll e => exact absurd rfl (hp e)
  | unmount => exact absurd rfl hu
  | dragOver => exact setState_timers c _
  | dragLeave => exact setState_timers c _
  | drop file => exact setState_timers c _
  | fileSelect file => exact setState_timers c _
  | clearFile => exact setState_timers c _
  | uploadClick =>
    simp only [Component.step, Component.uploadClick]
    split
    · cases handleUploadStart c.dash.state with
      | none => exact ⟨rfl, rfl, rfl⟩
      | some r => exact setState_timers c _
    · exact ⟨rfl, rfl, rfl⟩
  | uploadSettle index post put =>
    simp only [Component.step, Component.uploadSettle]
    cases c.uploads[index]? with
    | none => exact ⟨rfl, rfl, rfl⟩
    | some file => exact setState_timers c _
  | wait ms => exact fire_all_timers _ _

/-- The interval of a component is owned by the cleanup of its effect at every
moment, and none is left once the component is unmounted. -/
theorem run_intervalOwned (P : Platform) (actions : List Action) :
    (Component.run P actions).dash.intervalOwned ∧
    ((Component.run P actions).mounted = false → (Component.run P actions).dash.intervals = []) := by
  induction actions using List.reverseRecOn with
  | nil =>
    refine ⟨(run_owned P []).1, ?_⟩
    intro h
    cases h
  | append_singleton actions a ih =>
    have hrun : Component.run P (actions ++ [a])
        = (Component.run P actions).step P a := by
      simp [Component.run, List.foldl_append]
    rw [hrun]
    by_cases hp : ∃ e, a = .poll e
    · obtain ⟨e, rfl⟩ := hp
      simp only [Component.step]
      split
      · rename_i hm
        exact ⟨step_poll_intervalOwned P _ e ih.1, fun h => by rw [hm] at h; cases h⟩
      · exact ih
    · by_cases hu : a = .unmount
      · subst hu
        simp only [Component.step, Component.unmount]
        split
        · have hc := runCleanup_clears _ ih.1
          refine ⟨?_, fun _ => hc.1⟩
          unfold Dashboard.intervalOwned
          rw [hc.1, runCleanup_cleanup]
        · exact ih
      · have hs := step_timers P (Component.run P actions) a
          (fun e he => hp ⟨e, he⟩) hu
        refine ⟨?_, fun h => ?_⟩
        · unfold Dashboard.intervalOwned
          rw [hs.1, hs.2.1]
          exact ih.1
        · rw [hs.1]
          exact ih.2 (hs.2.2 ▸ h)

/-- What holds of C14: unmounting a component, in whatever state it is,
leaves no interval registered, and no interval tick fetches afterwards. -/
theorem unmount_clears_interval (P : Platform) (actions : List Action) (id : Nat) :
    (Component.run P (actions ++ [.unmount])).dash.intervals = [] ∧
    (Component.run P (actions ++ [.unmount])).mounted = false ∧
    (Component.run P (actions ++ [.unmount, .poll (.tick id)])).dash.requests
      = (Component.run P (actions ++ [.unmount])).dash.requests := by
  have hm : (Component.run P (actions ++ [.unmount])).mounted = false := by
    simp only [Component.run, List.foldl_append, List.foldl_cons, List.foldl_nil,
      Component.step, Component.unmount]
    split
    · rfl
    · rename_i h
      simpa using h
  refine ⟨(run_intervalOwned P _).2 hm, hm, ?_⟩
  have hrun : Component.run P (actions ++ [.unmount, .poll (.tick id)])
      = (Component.run P (actions ++ [.unmount])).step P (.poll (.tick id)) := by
    simp [Component.run, List.foldl_append]
  rw [hrun]
  simp [Component.step, hm]

/-- C14, at the failing input: a file is uploaded with success at time 0 and
the component is unmounted at time 1000.  Right after unmount no interval is
left, but both one-shot timers of the upload are still pending; at time 3000
the re-poll timer fires and issues a GET of the alerts endpoint although the
component is unmounted, and by time 5000 the success-clear timer has fired
too. -/
theorem timeouts_fire_after_unmount :
    (Component.run referencePlatform uploadThenUnmount).mounted = false ∧
    (Component.run referencePlatform uploadThenUnmount).dash.intervals = [] ∧
    (Component.run referencePlatform uploadThenUnmount).timeouts
      = [(3000, .fetchAlerts), (5000, .clearUploadSuccess)] ∧
    (Component.run referencePlatform uploadThenUnmount).dash.requests.map (fun r => r.method)
      = ["GET", "POST", "PUT"] ∧
    (Component.run referencePlatform (uploadThenUnmount ++ [.wait 2000])).mounted = false ∧
    (Component.run referencePlatform (uploadThenUnmount ++ [.wait 2000])).dash.requests.map
        (fun r => r.method)
      = ["GET", "POST", "PUT", "GET"] ∧
    (Component.run referencePlatform (uploadThenUnmount ++ [.wait 2000])).timeouts
      = [(5000, .clearUploadSuccess)] ∧
    (Component.run referencePlatform (uploadThenUnmount ++ [.wait 2000, .wait 2000])).timeouts
      = [] := by
  decide

/-- C15, at the failing input: a first upload succeeds at time 0, a second file
is picked at time 1000 and its upload succeeds at time 2000; no selection or
clear event follows.  The flag set by the second upload is still set at time
4999, but at time 5000, 3000 ms after it was set, the timer of the first
upload clears it, while the timer of the second upload is pending until 7000. -/
theorem earlier_timer_clears_success_flag :
    (Component.run referencePlatform twoUploads).clock = 2000 ∧
    (Component.run referencePlatform twoUploads).dash.state.uploadSuccess = true ∧
    (Component.run referencePlatform twoUploads).timeouts
      = [(3000, .fetchAlerts), (5000, .clearUploadSuccess), (5000, .fetchAlerts),
          (7000, .clearUploadSuccess)] ∧
    (Component.run referencePlatform (twoUploads ++ [.wait 2999])).clock = 4999 ∧
    (Component.run referencePlatform (twoUploads ++ [.wait 2999])).dash.state.uploadSuccess
      = true ∧
    (Component.run referencePlatform (twoUploads ++ [.wait 2999, .wait 1])).clock = 5000 ∧
    (Component.run referencePlatform (twoUploads ++ [.wait 2999, .wait 1])).dash.state.uploadSuccess
      = false ∧
    (Component.run referencePlatform (twoUploads ++ [.wait 2999, .wait 1])).timeouts
      = [(7000, .clearUploadSuccess)] := by
  decide

end CrimeDashboard
